import Mathlib

/-
Verification of the repetition-detection core of the pushup-ai-tracker
repository (push-up and squat counting from pose landmarks).

Embedding conventions:

* JavaScript numbers are modelled by `JSNum`: either `nan` or a rational
  value.  The detectors only ever add, scale and compare these values, and
  every comparison with `NaN` is false, exactly as in JavaScript.  Floating
  point rounding is outside the scope of the model.

* A MediaPipe landmark array is modelled by `LandmarkList`, a list of
  optional landmarks: accessing an index outside the array (or a hole)
  yields `none`, mirroring `undefined` in JavaScript.

* The joint angles are computed in the source by `calculateAngle`
  (dot product / `Math.hypot` / `Math.acos`, returning degrees, or `NaN`
  when a ray has zero length).  `Math.acos` is transcendental and has no
  exact computable rational embedding, so each processed frame carries the
  two computed angle values (`leftAngle`, `rightAngle`, of type `JSNum`)
  as explicit inputs.  The source uses these values only in threshold
  comparisons and in the angle smoothing average, and both uses are
  preserved exactly.  The same convention is used for the torso
  orientation angle (`Math.atan2`) of the windowed squat detector.

* Classes become structures; each mutating method becomes a function from
  the structure (plus the frame inputs) to the updated structure.
-/

/- Rational arithmetic is `irreducible` by default, which blocks `decide`
on concrete inputs; the embedding is meant to be executable, so restore
reducibility for this file. -/
attribute [local semireducible] Rat.add Rat.mul Rat.sub Rat.inv

deriving instance DecidableEq for Except

/-! ## JavaScript numbers with NaN -/

/-- A JavaScript number: either `NaN` or an (exact) rational value. -/
inductive JSNum where
  | nan : JSNum
  | val : ℚ → JSNum
deriving DecidableEq, Repr

namespace JSNum

/-- Addition; `NaN` propagates. -/
def add : JSNum → JSNum → JSNum
  | val a, val b => val (a + b)
  | _, _ => nan

/-- Multiplication by a rational constant; `NaN` propagates. -/
def scale : JSNum → ℚ → JSNum
  | val a, c => val (a * c)
  | nan, _ => nan

/-- Division by two; `NaN` propagates. -/
def half : JSNum → JSNum
  | val a => val (a / 2)
  | nan => nan

/-- `x > c` as in JavaScript: false when `x` is `NaN`. -/
def gtq : JSNum → ℚ → Bool
  | val a, c => decide (c < a)
  | nan, _ => false

/-- `x < c` as in JavaScript: false when `x` is `NaN`. -/
def ltq : JSNum → ℚ → Bool
  | val a, c => decide (a < c)
  | nan, _ => false

end JSNum

/-! ## Landmarks -/

/-- One MediaPipe pose landmark (`NormalizedLandmark`): position channels
and an optional visibility score (`visibility?: number`). -/
structure Landmark where
  x : ℚ
  y : ℚ
  z : ℚ
  visibility : Option ℚ
deriving DecidableEq, Repr

/-- A landmark array as delivered to `processLandmarks`; entries may be
absent (`undefined`). -/
abbrev LandmarkList := List (Option Landmark)

/-- Array indexing: `landmarks[i]`, `undefined` out of range. -/
def lget (l : LandmarkList) (i : ℕ) : Option Landmark :=
  (l.get? i).join

/-! ## Push-up detector (src/lib/PushupDetector.ts, current revision) -/

/-- `PushupState` of the current revision. -/
inductive PushupState where
  | Unknown : PushupState
  | Up : PushupState
  | Down : PushupState
deriving DecidableEq, Repr

/-- The mutable per-instance detection state of `PushupDetector`
(the pose-source plumbing fields are I/O glue and are not modelled). -/
structure PushupDetector where
  state : PushupState
  count : ℕ
  consecutiveUpFrames : ℕ
  requiredUpFrames : ℕ
  upAngleThreshold : ℚ
  downAngleThreshold : ℚ
  lastAvgAngle : JSNum
  smoothedAngle : JSNum
deriving DecidableEq, Repr

/-- One frame of input to `processLandmarks`: the landmark array together
with the two elbow angles the source computes from it via
`calculateAngle` (see the angle convention in the module comment). -/
structure PushupFrame where
  lms : LandmarkList
  leftAngle : JSNum
  rightAngle : JSNum

namespace PushupDetector

/-- Constructor state: `new PushupDetector(requiredUpFrames, up, down)`. -/
def init (requiredUpFrames : ℕ := 3) (upAngleThreshold : ℚ := 160)
    (downAngleThreshold : ℚ := 100) : PushupDetector :=
  { state := .Unknown
    count := 0
    consecutiveUpFrames := 0
    requiredUpFrames := requiredUpFrames
    upAngleThreshold := upAngleThreshold
    downAngleThreshold := downAngleThreshold
    lastAvgAngle := .val 0
    smoothedAngle := .val 0 }

/-- `shouldersAboveElbows`: both shoulders strictly above (smaller y than)
their elbows. -/
def shouldersAboveElbows (ls le rs re : Landmark) : Bool :=
  decide (ls.y < le.y) && decide (rs.y < re.y)

/-- `shouldersBelowElbows`: both shoulders strictly below their elbows. -/
def shouldersBelowElbows (ls le rs re : Landmark) : Bool :=
  decide (ls.y > le.y) && decide (rs.y > re.y)

/-- `armsStraight`: each elbow angle above the up threshold. -/
def armsStraight (la ra : JSNum) (upThr : ℚ) : Bool :=
  la.gtq upThr && ra.gtq upThr

/-- `elbowsBentEnough`: each elbow angle below the down threshold. -/
def elbowsBentEnough (la ra : JSNum) (downThr : ℚ) : Bool :=
  la.ltq downThr && ra.ltq downThr

/-- `isUpFrame = shouldersAboveElbows && armsStraight`. -/
def isUpFrame (ls le rs re : Landmark) (la ra : JSNum) (upThr : ℚ) : Bool :=
  shouldersAboveElbows ls le rs re && armsStraight la ra upThr

/-- `isDownFrame = shouldersBelowElbows && elbowsBentEnough`. -/
def isDownFrame (ls le rs re : Landmark) (la ra : JSNum) (downThr : ℚ) : Bool :=
  shouldersBelowElbows ls le rs re && elbowsBentEnough la ra downThr

/-- The part of `processLandmarks` after the landmark-presence check, with
the two per-frame classification booleans and the average angle already
computed: angle smoothing, the `consecutiveUpFrames` run counter, and the
three-state switch.  Follows the source statement order. -/
def stepClassified (d : PushupDetector) (isUpF isDownF : Bool)
    (avgAngle : JSNum) : PushupDetector :=
  let smoothed := (d.smoothedAngle.scale (4/5)).add (avgAngle.scale (1/5))
  let consec := if isUpF then d.consecutiveUpFrames + 1 else 0
  let d := { d with
    smoothedAngle := smoothed
    lastAvgAngle := smoothed
    consecutiveUpFrames := consec }
  match d.state with
  | .Unknown =>
      { d with state := if isUpF then .Up else .Down, consecutiveUpFrames := 0 }
  | .Up =>
      if isDownF then { d with state := .Down } else d
  | .Down =>
      if isUpF && decide (d.consecutiveUpFrames ≥ d.requiredUpFrames) then
        { d with state := .Up, count := d.count + 1, consecutiveUpFrames := 0 }
      else d

/-- `processLandmarks`: reads shoulders (11/12), elbows (13/14) and wrists
(15/16), returns unchanged if any is absent, otherwise classifies the
frame and advances the state machine. -/
def processLandmarks (d : PushupDetector) (f : PushupFrame) : PushupDetector :=
  match lget f.lms 11, lget f.lms 13, lget f.lms 15,
        lget f.lms 12, lget f.lms 14, lget f.lms 16 with
  | some ls, some le, some _lw, some rs, some re, some _rw =>
      let avgAngle := (f.leftAngle.add f.rightAngle).half
      d.stepClassified
        (isUpFrame ls le rs re f.leftAngle f.rightAngle d.upAngleThreshold)
        (isDownFrame ls le rs re f.leftAngle f.rightAngle d.downAngleThreshold)
        avgAngle
  | _, _, _, _, _, _ => d

/-- Folding `processLandmarks` over a sequence of frames. -/
def processAll (d : PushupDetector) (fs : List PushupFrame) : PushupDetector :=
  fs.foldl processLandmarks d

/-- `reset()`. -/
def reset (d : PushupDetector) : PushupDetector :=
  { d with
    count := 0
    state := .Unknown
    consecutiveUpFrames := 0
    lastAvgAngle := .val 0
    smoothedAngle := .val 0 }

end PushupDetector

/-! ## Squat detector (src/lib/SquatDetector.ts, first revision:
symmetric up/down debouncing) -/

/-- `SquatState`. -/
inductive SquatState where
  | Unknown : SquatState
  | Up : SquatState
  | Down : SquatState
deriving DecidableEq, Repr

/-- Mutable detection state of the first `SquatDetector` revision. -/
structure SquatDetector where
  state : SquatState
  count : ℕ
  consecutiveUpFrames : ℕ
  consecutiveDownFrames : ℕ
  requiredUpFrames : ℕ
  requiredDownFrames : ℕ
  upAngleThreshold : ℚ
  downAngleThreshold : ℚ
  lastAvgAngle : JSNum
deriving DecidableEq, Repr

/-- One frame of input to the squat `processLandmarks`: the landmark array
plus the two knee angles computed from it by `angle` (hip–knee–ankle). -/
structure SquatFrame where
  lms : LandmarkList
  leftAngle : JSNum
  rightAngle : JSNum

namespace SquatDetector

/-- Constructor state: `new SquatDetector(requiredUpFrames, requiredDownFrames)`
(thresholds are the fixed class fields 160/100). -/
def init (requiredUpFrames : ℕ := 2) (requiredDownFrames : ℕ := 2) :
    SquatDetector :=
  { state := .Unknown
    count := 0
    consecutiveUpFrames := 0
    consecutiveDownFrames := 0
    requiredUpFrames := requiredUpFrames
    requiredDownFrames := requiredDownFrames
    upAngleThreshold := 160
    downAngleThreshold := 100
    lastAvgAngle := .val 0 }

/-- The part of `processLandmarks` after the presence check, given the two
classification booleans (`avg > 160`, `avg < 100`) and the average angle:
run counters and the three-state switch. -/
def stepClassified (d : SquatDetector) (isUpF isDownF : Bool)
    (avg : JSNum) : SquatDetector :=
  let cu := if isUpF then d.consecutiveUpFrames + 1 else 0
  let cd := if isDownF then d.consecutiveDownFrames + 1 else 0
  let d := { d with
    lastAvgAngle := avg
    consecutiveUpFrames := cu
    consecutiveDownFrames := cd }
  match d.state with
  | .Unknown =>
      if decide (d.consecutiveUpFrames ≥ d.requiredUpFrames) then
        { d with state := .Up, consecutiveUpFrames := 0 }
      else if decide (d.consecutiveDownFrames ≥ d.requiredDownFrames) then
        { d with state := .Down, consecutiveDownFrames := 0 }
      else d
  | .Up =>
      if decide (d.consecutiveDownFrames ≥ d.requiredDownFrames) then
        { d with state := .Down, consecutiveDownFrames := 0 }
      else d
  | .Down =>
      if decide (d.consecutiveUpFrames ≥ d.requiredUpFrames) then
        { d with state := .Up, count := d.count + 1, consecutiveUpFrames := 0 }
      else d

/-- `processLandmarks`: reads hips (23/24), knees (25/26) and ankles
(27/28); returns unchanged if any is absent; otherwise classifies the
average knee angle against the two thresholds and advances the machine. -/
def processLandmarks (d : SquatDetector) (f : SquatFrame) : SquatDetector :=
  match lget f.lms 23, lget f.lms 24, lget f.lms 25,
        lget f.lms 26, lget f.lms 27, lget f.lms 28 with
  | some _, some _, some _, some _, some _, some _ =>
      let avg := (f.leftAngle.add f.rightAngle).half
      d.stepClassified (avg.gtq d.upAngleThreshold) (avg.ltq d.downAngleThreshold) avg
  | _, _, _, _, _, _ => d

/-- Folding `processLandmarks` over a sequence of frames. -/
def processAll (d : SquatDetector) (fs : List SquatFrame) : SquatDetector :=
  fs.foldl processLandmarks d

/-- `reset()`. -/
def reset (d : SquatDetector) : SquatDetector :=
  { d with
    count := 0
    state := .Unknown
    consecutiveUpFrames := 0
    consecutiveDownFrames := 0
    lastAvgAngle := .val 0 }

end SquatDetector

/-! ## Push-up detector, part_007 revision (landmark smoothing,
position-only down classification) -/

/-- Mutable state of the part_007 `PushupDetector` revision, which keeps an
exponentially smoothed copy of the landmark set (`smoothedLandmarks`,
`null` until the first processed frame). -/
structure PushupDetectorV7 where
  state : PushupState
  count : ℕ
  consecutiveUpFrames : ℕ
  requiredUpFrames : ℕ
  upAngleThreshold : ℚ
  downAngleThreshold : ℚ
  lastAvgAngle : JSNum
  smoothedAngle : JSNum
  smoothedLandmarks : Option (List Landmark)
deriving DecidableEq, Repr

namespace PushupDetectorV7

/-- Constructor state: `new PushupDetector(requiredUpFrames = 1, 160, 100)`. -/
def init (requiredUpFrames : ℕ := 1) (upAngleThreshold : ℚ := 160)
    (downAngleThreshold : ℚ := 100) : PushupDetectorV7 :=
  { state := .Unknown
    count := 0
    consecutiveUpFrames := 0
    requiredUpFrames := requiredUpFrames
    upAngleThreshold := upAngleThreshold
    downAngleThreshold := downAngleThreshold
    lastAvgAngle := .val 0
    smoothedAngle := .val 0
    smoothedLandmarks := none }

/-- The per-landmark exponential blend of `smooth` with
`smoothingFactor = 0.8`: each channel becomes
`prev * 0.8 + cur * 0.2`, a missing visibility reading as `0.5`. -/
def smoothLandmark (prev cur : Landmark) : Landmark :=
  { x := prev.x * (4/5) + cur.x * (1 - 4/5)
    y := prev.y * (4/5) + cur.y * (1 - 4/5)
    z := prev.z * (4/5) + cur.z * (1 - 4/5)
    visibility :=
      some ((prev.visibility.getD (1/2)) * (4/5)
        + (cur.visibility.getD (1/2)) * (1 - 4/5)) }

/-- `smooth(lms)`, acting on the stored smoothing state: on the first call
(`smoothedLandmarks === null`) the raw set is copied; afterwards the loop
`for (let i = 0; i < lms.length; i++)` blends entry `i` of the stored set
in place.  When the input is longer than the stored set the loop reads
`prev === undefined` and the assignment `prev.x = ...` throws a
`TypeError`, modelled by `Except.error`.  Entries of the stored set beyond
the input length are left untouched.  The returned list is also the new
stored state. -/
def smooth (st : Option (List Landmark)) (lms : List Landmark) :
    Except Unit (List Landmark) :=
  match st with
  | none => .ok lms
  | some s =>
      if s.length < lms.length then .error ()
      else .ok (List.zipWith smoothLandmark s lms ++ s.drop lms.length)

/-- part_007's `isDownFrame = shouldersBelowElbows`: position only, no
elbow-angle condition (source comment: "Elbow angle is not considered to
avoid missed reps"). -/
def isDownFrame (ls le rs re : Landmark) : Bool :=
  PushupDetector.shouldersBelowElbows ls le rs re

end PushupDetectorV7

/-- One frame of input to the part_007 `processLandmarks`: a dense raw
landmark array (the pose source's fixed topology) plus the two elbow
angles the source computes from the *smoothed* landmarks via
`calculateAngle`. -/
structure PushupFrameV7 where
  lms : List Landmark
  leftAngle : JSNum
  rightAngle : JSNum

namespace PushupDetectorV7

/-- The post-classification part of part_007's `processLandmarks`: angle
smoothing, run counter and the same three-state switch as the current
revision. -/
def stepClassified (d : PushupDetectorV7) (isUpF isDownF : Bool)
    (avgAngle : JSNum) : PushupDetectorV7 :=
  let smoothed := (d.smoothedAngle.scale (4/5)).add (avgAngle.scale (1/5))
  let consec := if isUpF then d.consecutiveUpFrames + 1 else 0
  let d := { d with
    smoothedAngle := smoothed
    lastAvgAngle := smoothed
    consecutiveUpFrames := consec }
  match d.state with
  | .Unknown =>
      { d with state := if isUpF then .Up else .Down, consecutiveUpFrames := 0 }
  | .Up =>
      if isDownF then { d with state := .Down } else d
  | .Down =>
      if isUpF && decide (d.consecutiveUpFrames ≥ d.requiredUpFrames) then
        { d with state := .Up, count := d.count + 1, consecutiveUpFrames := 0 }
      else d

/-- part_007's `processLandmarks`: smooths the landmark set first (a
`TypeError` from `smooth` propagates, modelled by `Except.error`), then
runs the presence check on the smoothed set and the same state machine as
the current revision, except that the down classification is
position-only (`isDownFrame = shouldersBelowElbows`). -/
def processLandmarks (d : PushupDetectorV7) (f : PushupFrameV7) :
    Except Unit PushupDetectorV7 :=
  match smooth d.smoothedLandmarks f.lms with
  | .error e => .error e
  | .ok sm =>
      let d := { d with smoothedLandmarks := some sm }
      match sm.get? 11, sm.get? 13, sm.get? 15,
            sm.get? 12, sm.get? 14, sm.get? 16 with
      | some ls, some le, some _lw, some rs, some re, some _rw =>
          let avgAngle := (f.leftAngle.add f.rightAngle).half
          .ok (d.stepClassified
            (PushupDetector.isUpFrame ls le rs re f.leftAngle f.rightAngle
              d.upAngleThreshold)
            (isDownFrame ls le rs re)
            avgAngle)
      | _, _, _, _, _, _ => .ok d

/-- part_007's `reset()`: also discards the smoothed landmark set. -/
def reset (d : PushupDetectorV7) : PushupDetectorV7 :=
  { d with
    count := 0
    state := .Unknown
    consecutiveUpFrames := 0
    lastAvgAngle := .val 0
    smoothedAngle := .val 0
    smoothedLandmarks := none }

end PushupDetectorV7

/-! ## Squat detector, second revision in src/lib/SquatDetector.ts
(landmark smoothing) — only its `smooth`, which is textually identical to
part_007's, is needed here. -/

namespace SquatDetectorV2

/-- The second squat revision's `smooth` is the same code as part_007's
(`smoothingFactor = 0.8`, first call copies, later calls blend in place). -/
def smooth (st : Option (List Landmark)) (lms : List Landmark) :
    Except Unit (List Landmark) :=
  PushupDetectorV7.smooth st lms

end SquatDetectorV2

/-! ## Push-up detector, part_008 revision (leg-visibility gate) -/

/-- The part_008 revision's state enum (`WaitingForUp` instead of
`Unknown`). -/
inductive PushupStateV8 where
  | WaitingForUp : PushupStateV8
  | Up : PushupStateV8
  | Down : PushupStateV8
deriving DecidableEq, Repr

/-- `LEG_VISIBILITY_THRESHOLD = 0.3` (same constant in part_008 and
part_009). -/
def LEG_VISIBILITY_THRESHOLD : ℚ := 3/10

/-- `LEG_MISSING_FRAMES = 2` (same constant in part_008 and part_009). -/
def LEG_MISSING_FRAMES : ℕ := 2

/-- The leg-visibility check shared by part_008 and part_009:
`[hips, knees, ankles, feet].some((lm) => lm && (lm.visibility ?? 0) > 0.3)`
over landmark indices 23, 24, 25, 26, 27, 28, 31, 32. -/
def legVisibleCheck (lms : LandmarkList) : Bool :=
  [lget lms 23, lget lms 24, lget lms 25, lget lms 26,
   lget lms 27, lget lms 28, lget lms 31, lget lms 32].any
    (fun lm => match lm with
      | some l => decide ((l.visibility.getD 0) > LEG_VISIBILITY_THRESHOLD)
      | none => false)

/-- Mutable state of the part_008 push-up revision. -/
structure PushupDetectorV8 where
  state : PushupStateV8
  count : ℕ
  consecutiveUpFrames : ℕ
  requiredUpFrames : ℕ
  framesBelowVisibility : ℕ
  legSeen : Bool
deriving DecidableEq, Repr

namespace PushupDetectorV8

/-- The part of part_008's `processLandmarks` after the presence check and
the visibility gate: average-angle classification
(`isUpFrame = avgAngle > 160 && legVisible`, `isDownFrame = avgAngle < 100`),
run counter and the switch with the `legSeen` bookkeeping. -/
def stepClassified (d : PushupDetectorV8) (legVisible : Bool)
    (avgAngle : JSNum) : PushupDetectorV8 :=
  let isUpF := avgAngle.gtq 160 && legVisible
  let isDownF := avgAngle.ltq 100
  let d := { d with
    consecutiveUpFrames := if isUpF then d.consecutiveUpFrames + 1 else 0 }
  match d.state with
  | .WaitingForUp =>
      if isUpF && decide (d.consecutiveUpFrames ≥ d.requiredUpFrames) then
        { d with state := .Up, consecutiveUpFrames := 0 }
      else d
  | .Up =>
      if isDownF && legVisible then
        { d with state := .Down, legSeen := true }
      else d
  | .Down =>
      if isUpF && decide (d.consecutiveUpFrames ≥ d.requiredUpFrames) then
        { d with
          state := .Up
          count := if d.legSeen then d.count + 1 else d.count
          legSeen := false
          consecutiveUpFrames := 0 }
      else d

/-- part_008's `processLandmarks`: arm-landmark presence check, then the
leg-visibility gate (an invisible frame increments
`framesBelowVisibility` and is skipped once the counter exceeds
`LEG_MISSING_FRAMES`; a visible frame resets the counter), then
classification by the average elbow angle. -/
def processLandmarks (d : PushupDetectorV8) (f : PushupFrame) :
    PushupDetectorV8 :=
  match lget f.lms 11, lget f.lms 13, lget f.lms 15,
        lget f.lms 12, lget f.lms 14, lget f.lms 16 with
  | some _, some _, some _, some _, some _, some _ =>
      let legVisible := legVisibleCheck f.lms
      let avgAngle := (f.leftAngle.add f.rightAngle).half
      if !legVisible then
        let d := { d with framesBelowVisibility := d.framesBelowVisibility + 1 }
        if decide (d.framesBelowVisibility > LEG_MISSING_FRAMES) then d
        else d.stepClassified legVisible avgAngle
      else
        let d := { d with framesBelowVisibility := 0 }
        d.stepClassified legVisible avgAngle
  | _, _, _, _, _, _ => d

end PushupDetectorV8

/-! ## Squat detector, part_009 revision (windowed smoothing, visibility
gate, torso-orientation filter) -/

/-- Mutable state of the part_009 squat revision. -/
structure SquatDetectorV9 where
  isDown : Bool
  count : ℕ
  angleHistory : List ℚ
  torsoHistory : List ℚ
  framesBelowVisibility : ℕ
  downFrameCount : ℕ
  upFrameCount : ℕ
deriving DecidableEq, Repr

/-- One frame of input to part_009's `processLandmarks`: the landmark
array, the two knee angles computed by `angle`, and the torso orientation
angle computed by `Math.atan2` from the shoulder and hip midpoints (angle
values as explicit inputs, per the module convention; the part_009 claims
concern frames with real angle values, so these are plain rationals). -/
structure SquatFrameV9 where
  lms : LandmarkList
  leftAngle : ℚ
  rightAngle : ℚ
  torsoAngle : ℚ

namespace SquatDetectorV9

/-- `ANGLE_WINDOW = 5`. -/
def ANGLE_WINDOW : ℕ := 5

/-- `DOWN_THRESHOLD = 100`. -/
def DOWN_THRESHOLD : ℚ := 100

/-- `UP_THRESHOLD = 160`. -/
def UP_THRESHOLD : ℚ := 160

/-- `FRAME_COUNT_THRESHOLD = 3`. -/
def FRAME_COUNT_THRESHOLD : ℕ := 3

/-- `ORIENTATION_CHANGE_THRESHOLD = 15` degrees. -/
def ORIENTATION_CHANGE_THRESHOLD : ℚ := 15

/-- Constructor state of part_009's `SquatDetector` (also the state after
`reset()`). -/
def init : SquatDetectorV9 :=
  { isDown := false
    count := 0
    angleHistory := []
    torsoHistory := []
    framesBelowVisibility := 0
    downFrameCount := 0
    upFrameCount := 0 }

/-- `h.push(x); if (h.length > ANGLE_WINDOW) h.shift();` -/
def pushWindow (h : List ℚ) (x : ℚ) : List ℚ :=
  let h := h ++ [x]
  if h.length > ANGLE_WINDOW then h.tail else h

/-- `history.reduce((s, v) => s + v, 0) / history.length` (the source only
evaluates this right after a push, so on a nonempty list). -/
def listMean (h : List ℚ) : ℚ :=
  h.foldl (· + ·) 0 / h.length

/-- The tail of part_009's `processLandmarks`, after the presence check,
the visibility gate and the torso-orientation filter: pushes the torso
angle and the average knee angle into their windows, compares the window
mean against the hysteresis thresholds, maintains the up/down streak
counters, and drives the two-phase (`isDown`) counter. -/
def stepAccepted (d : SquatDetectorV9) (legVisible : Bool)
    (avg torsoAngle : ℚ) : SquatDetectorV9 :=
  let torsoHistory := pushWindow d.torsoHistory torsoAngle
  let angleHistory := pushWindow d.angleHistory avg
  let smoothAngle := listMean angleHistory
  let downFrameCount :=
    if decide (smoothAngle < DOWN_THRESHOLD) then d.downFrameCount + 1 else 0
  let upFrameCount :=
    if decide (smoothAngle > UP_THRESHOLD) then d.upFrameCount + 1 else 0
  let d := { d with
    torsoHistory := torsoHistory
    angleHistory := angleHistory
    downFrameCount := downFrameCount
    upFrameCount := upFrameCount }
  let d :=
    if decide (d.downFrameCount ≥ FRAME_COUNT_THRESHOLD) && !d.isDown
        && legVisible then
      { d with isDown := true }
    else d
  if decide (d.upFrameCount ≥ FRAME_COUNT_THRESHOLD) && d.isDown then
    { d with isDown := false, count := d.count + 1 }
  else d

/-- part_009's `processLandmarks`: presence check on hips, knees, ankles
and shoulders; leg-visibility gate (increment-and-skip beyond
`LEG_MISSING_FRAMES`, reset on a visible frame); torso-orientation filter
(a frame whose torso angle differs from the last accepted one by more
than 15° is dropped); then the windowed angle classification. -/
def processLandmarks (d : SquatDetectorV9) (f : SquatFrameV9) :
    SquatDetectorV9 :=
  if !((lget f.lms 23).isSome && (lget f.lms 24).isSome
      && (lget f.lms 25).isSome && (lget f.lms 26).isSome
      && (lget f.lms 27).isSome && (lget f.lms 28).isSome
      && (lget f.lms 11).isSome && (lget f.lms 12).isSome) then d
  else
    let legVisible := legVisibleCheck f.lms
    if !legVisible && decide (d.framesBelowVisibility + 1 > LEG_MISSING_FRAMES) then
      { d with framesBelowVisibility := d.framesBelowVisibility + 1 }
    else
      let d :=
        if !legVisible then
          { d with framesBelowVisibility := d.framesBelowVisibility + 1 }
        else
          { d with framesBelowVisibility := 0 }
      match d.torsoHistory.getLast? with
      | some prevOrientation =>
          if decide (|f.torsoAngle - prevOrientation| > ORIENTATION_CHANGE_THRESHOLD) then
            d
          else
            d.stepAccepted legVisible ((f.leftAngle + f.rightAngle) / 2) f.torsoAngle
      | none =>
          d.stepAccepted legVisible ((f.leftAngle + f.rightAngle) / 2) f.torsoAngle

/-- Folding part_009's `processLandmarks` over a sequence of frames. -/
def processAll (d : SquatDetectorV9) (fs : List SquatFrameV9) : SquatDetectorV9 :=
  fs.foldl processLandmarks d

end SquatDetectorV9

/-! ## Definitions modelled from the spec, for refinement comparison -/

/-- Modelled from the spec: "is-up-frame: joint angle exceeds an up
threshold (160°) AND the proximal landmark (shoulder) is vertically above
the medial joint (elbow)", with the angle "averaged over both arms" —
the averaged-angle reading of the up classification. -/
def specIsUpFrame (ls le rs re : Landmark) (la ra : JSNum) : Bool :=
  PushupDetector.shouldersAboveElbows ls le rs re && ((la.add ra).half.gtq 160)

/-- Modelled from the spec: "is-down-frame: the proximal landmark has
dropped vertically below the medial joint", deliberately not gated on an
angle threshold. -/
def specIsDownFrame (ls le rs re : Landmark) : Bool :=
  PushupDetector.shouldersBelowElbows ls le rs re

/-- Modelled from the spec: "a frame is leg-visible if at least one of a
fixed set of lower-body landmarks (hips, knees, ankles, feet — both
sides) has visibility above a threshold (recommended 0.3)", a missing
visibility value counting as 0. -/
def specLegVisible (lms : LandmarkList) : Prop :=
  ∃ i ∈ [23, 24, 25, 26, 27, 28, 31, 32],
    ∃ l, lget lms i = some l ∧ LEG_VISIBILITY_THRESHOLD < l.visibility.getD 0

instance (lms : LandmarkList) : Decidable (specLegVisible lms) := by
  unfold specLegVisible; infer_instance

/-! ## Frame classification wrappers (for stating per-frame hypotheses) -/

namespace PushupDetector

/-- The classification a `processLandmarks` call computes from a frame:
`none` when a required arm landmark is absent (the frame is skipped),
otherwise the pair `(isUpFrame, isDownFrame)`. -/
def frameClass (f : PushupFrame) (upThr downThr : ℚ) : Option (Bool × Bool) :=
  match lget f.lms 11, lget f.lms 13, lget f.lms 15,
        lget f.lms 12, lget f.lms 14, lget f.lms 16 with
  | some ls, some le, some _lw, some rs, some re, some _rw =>
      some (isUpFrame ls le rs re f.leftAngle f.rightAngle upThr,
            isDownFrame ls le rs re f.leftAngle f.rightAngle downThr)
  | _, _, _, _, _, _ => none

/-- A frame is up-classified: required landmarks present and `isUpFrame`. -/
def classifiesUp (f : PushupFrame) (upThr downThr : ℚ) : Bool :=
  match frameClass f upThr downThr with
  | some (up, _) => up
  | none => false

/-- A frame is down-classified: required landmarks present and
`isDownFrame`. -/
def classifiesDown (f : PushupFrame) (upThr downThr : ℚ) : Bool :=
  match frameClass f upThr downThr with
  | some (_, dn) => dn
  | none => false

end PushupDetector

namespace SquatDetector

/-- The classification a squat `processLandmarks` call computes from a
frame: `none` when a required leg landmark is absent, otherwise
`(avg > upThr, avg < downThr)` for the average knee angle. -/
def frameClass (f : SquatFrame) (upThr downThr : ℚ) : Option (Bool × Bool) :=
  match lget f.lms 23, lget f.lms 24, lget f.lms 25,
        lget f.lms 26, lget f.lms 27, lget f.lms 28 with
  | some _, some _, some _, some _, some _, some _ =>
      some (((f.leftAngle.add f.rightAngle).half).gtq upThr,
            ((f.leftAngle.add f.rightAngle).half).ltq downThr)
  | _, _, _, _, _, _ => none

end SquatDetector

/-! ## Further definitions used in theorem statements -/

/-- The computed angle lies strictly inside the hysteresis dead zone
(between the 100° down threshold and the 160° up threshold). -/
def inHyst : JSNum → Bool
  | .val q => decide (100 < q ∧ q < 160)
  | .nan => false

/-- A landmark list whose six arm entries (indices 11–16) are present:
shoulders at height `sy`, elbows at `ey`, wrists at `wy` (left at x = 0,
right at x = 1). -/
def armLms (sy ey wy : ℚ) : LandmarkList :=
  (List.replicate 11 none) ++
    [some ⟨0, sy, 0, none⟩, some ⟨1, sy, 0, none⟩,
     some ⟨0, ey, 0, none⟩, some ⟨1, ey, 0, none⟩,
     some ⟨0, wy, 0, none⟩, some ⟨1, wy, 0, none⟩]

/-- A push-up frame with shoulders above elbows and both elbow angles
170°: up-classified at the default thresholds. -/
def upFrame : PushupFrame := ⟨armLms 0 1 2, .val 170, .val 170⟩

/-- A push-up frame with shoulders below elbows and both elbow angles
90°: down-classified at the default thresholds. -/
def downFrame : PushupFrame := ⟨armLms 2 1 0, .val 90, .val 90⟩

/-- A push-up frame with all six arm landmarks present whose angle
computation yielded `NaN` (as `calculateAngle` does when two of the three
landmarks coincide). -/
def nanFrame : PushupFrame := ⟨armLms 0 1 2, .nan, .nan⟩

/-- A push-up frame with present arm landmarks, shoulders above elbows,
left elbow angle 180° and right elbow angle 150°: the two angles average
to 165° > 160° although the right arm fails the per-arm check. -/
def avgUpFrame : PushupFrame := ⟨armLms 0 1 2, .val 180, .val 150⟩

/-- A push-up frame with shoulders below elbows and both elbow angles
120°: positionally down but above the 100° down threshold. -/
def shallowDownFrame : PushupFrame := ⟨armLms 2 1 0, .val 120, .val 120⟩

/-- Arm landmarks (indices 11–16) plus a single visible left hip
(index 23) with the given visibility value. -/
def armLegLms (vis : Option ℚ) : LandmarkList :=
  armLms 0 1 2 ++ (List.replicate 6 none) ++ [some ⟨0, 3, 0, vis⟩]

/-- Landmarks with shoulders and elbows only (wrists absent), legs
fully visible at the left hip: passes the leg-visibility check but fails
the arm presence check. -/
def noWristLms : LandmarkList :=
  (List.replicate 11 none) ++
    [some ⟨0, 0, 0, none⟩, some ⟨1, 0, 0, none⟩,
     some ⟨0, 1, 0, none⟩, some ⟨1, 1, 0, none⟩] ++
    (List.replicate 8 none) ++ [some ⟨0, 3, 0, some 1⟩]

/-- A landmark list with the six leg entries (23–28) present and fully
visible, and shoulders (11, 12) present, as part_009 requires. -/
def legLms : LandmarkList :=
  (List.replicate 11 none) ++ [some ⟨0, 0, 0, none⟩, some ⟨1, 0, 0, none⟩] ++
    (List.replicate 10 none) ++
    [some ⟨0, 1, 0, some 1⟩, some ⟨1, 1, 0, some 1⟩, some ⟨0, 2, 0, some 1⟩,
     some ⟨1, 2, 0, some 1⟩, some ⟨0, 3, 0, some 1⟩, some ⟨1, 3, 0, some 1⟩]

/-- A part_009 squat frame over `legLms` with both knee angles `a` and
torso orientation 0. -/
def v9Frame (a : ℚ) : SquatFrameV9 := ⟨legLms, a, a, 0⟩

/-- A squat (first revision) frame over `legLms` with both knee angles
`a`. -/
def sqFrame (a : ℚ) : SquatFrame := ⟨legLms, .val a, .val a⟩

/-- A push-up detector resting in the `Down` phase with the default
configuration (`requiredUpFrames = 3`, thresholds 160/100). -/
def downStateDetector : PushupDetector :=
  { PushupDetector.init 3 160 100 with state := .Down }

/-! ## Helper lemmas -/

namespace PushupDetector

lemma processLandmarks_of_frameClass {d : PushupDetector} {f : PushupFrame}
    {up dn : Bool}
    (h : frameClass f d.upAngleThreshold d.downAngleThreshold = some (up, dn)) :
    d.processLandmarks f
      = d.stepClassified up dn ((f.leftAngle.add f.rightAngle).half) := by
  unfold frameClass at h
  unfold processLandmarks
  rcases h11 : lget f.lms 11 with _ | ls <;> rw [h11] at h <;>
    rcases h13 : lget f.lms 13 with _ | le <;> rw [h13] at h <;>
    rcases h15 : lget f.lms 15 with _ | lw <;> rw [h15] at h <;>
    rcases h12 : lget f.lms 12 with _ | rs <;> rw [h12] at h <;>
    rcases h14 : lget f.lms 14 with _ | re <;> rw [h14] at h <;>
    rcases h16 : lget f.lms 16 with _ | rw <;> rw [h16] at h <;>
    simp_all

lemma processLandmarks_of_frameClass_none {d : PushupDetector}
    {f : PushupFrame}
    (h : frameClass f d.upAngleThreshold d.downAngleThreshold = none) :
    d.processLandmarks f = d := by
  unfold frameClass at h
  unfold processLandmarks
  rcases h11 : lget f.lms 11 with _ | ls <;> rw [h11] at h <;>
    rcases h13 : lget f.lms 13 with _ | le <;> rw [h13] at h <;>
    rcases h15 : lget f.lms 15 with _ | lw <;> rw [h15] at h <;>
    rcases h12 : lget f.lms 12 with _ | rs <;> rw [h12] at h <;>
    rcases h14 : lget f.lms 14 with _ | re <;> rw [h14] at h <;>
    rcases h16 : lget f.lms 16 with _ | rw <;> rw [h16] at h <;>
    simp_all

/-- Any `processLandmarks` call is either a skip or a classified step. -/
lemma processLandmarks_cases (d : PushupDetector) (f : PushupFrame) :
    d.processLandmarks f = d
    ∨ ∃ up dn, frameClass f d.upAngleThreshold d.downAngleThreshold = some (up, dn)
        ∧ d.processLandmarks f
            = d.stepClassified up dn ((f.leftAngle.add f.rightAngle).half) := by
  rcases h : frameClass f d.upAngleThreshold d.downAngleThreshold with _ | ⟨up, dn⟩
  · exact Or.inl (processLandmarks_of_frameClass_none h)
  · exact Or.inr ⟨up, dn, rfl, processLandmarks_of_frameClass h⟩

end PushupDetector

namespace PushupDetector

/-- Predicate-level mutual exclusion: a down frame is never an up frame
(the shoulders cannot be both strictly above and strictly below the
elbows). -/
lemma isUpFrame_eq_false_of_isDownFrame {ls le rs re : Landmark}
    {la ra : JSNum} {upThr downThr : ℚ}
    (h : isDownFrame ls le rs re la ra downThr = true) :
    isUpFrame ls le rs re la ra upThr = false := by
  simp only [isDownFrame, shouldersBelowElbows, elbowsBentEnough,
    Bool.and_eq_true, decide_eq_true_eq] at h
  simp only [isUpFrame, shouldersAboveElbows, armsStraight,
    Bool.and_eq_false_iff, decide_eq_false_iff_not]
  left; left
  exact not_lt_of_gt h.1.1

/-- Unpacking a successful frame classification. -/
lemma frameClass_eq_some {f : PushupFrame} {upThr downThr : ℚ}
    {up dn : Bool} (h : frameClass f upThr downThr = some (up, dn)) :
    ∃ ls le rs re, lget f.lms 11 = some ls ∧ lget f.lms 13 = some le
      ∧ lget f.lms 12 = some rs ∧ lget f.lms 14 = some re
      ∧ up = isUpFrame ls le rs re f.leftAngle f.rightAngle upThr
      ∧ dn = isDownFrame ls le rs re f.leftAngle f.rightAngle downThr := by
  unfold frameClass at h
  rcases h11 : lget f.lms 11 with _ | ls <;> rw [h11] at h <;>
    rcases h13 : lget f.lms 13 with _ | le <;> rw [h13] at h <;>
    rcases h15 : lget f.lms 15 with _ | lw <;> rw [h15] at h <;>
    rcases h12 : lget f.lms 12 with _ | rs <;> rw [h12] at h <;>
    rcases h14 : lget f.lms 14 with _ | re <;> rw [h14] at h <;>
    rcases h16 : lget f.lms 16 with _ | rw <;> rw [h16] at h <;>
    simp_all

/-- A down-classified frame is not up-classified. -/
lemma classifiesUp_eq_false_of_classifiesDown {f : PushupFrame}
    {upThr downThr : ℚ} (h : classifiesDown f upThr downThr = true) :
    classifiesUp f upThr downThr = false := by
  unfold classifiesDown at h
  unfold classifiesUp
  rcases hc : frameClass f upThr downThr with _ | ⟨up, dn⟩ <;>
    rw [hc] at h
  obtain ⟨ls, le, rs, re, _, _, _, _, hup, hdn⟩ := frameClass_eq_some hc
  replace h : dn = true := h
  show up = false
  rw [hup]
  exact isUpFrame_eq_false_of_isDownFrame (by rw [← hdn]; exact h)

/-- Core behaviour of one classified step: the count moves by at most one,
it moves exactly on the `Down → Up` transition, the `Unknown` state is
never re-entered, and the configuration fields are untouched. -/
lemma stepClassified_spec (d : PushupDetector) (u dn : Bool) (a : JSNum) :
    ((d.stepClassified u dn a).count = d.count
      ∨ (d.stepClassified u dn a).count = d.count + 1)
    ∧ ((d.stepClassified u dn a).count = d.count + 1
        ↔ d.state = .Down ∧ (d.stepClassified u dn a).state = .Up)
    ∧ ((d.stepClassified u dn a).state = .Unknown → d.state = .Unknown)
    ∧ (d.stepClassified u dn a).requiredUpFrames = d.requiredUpFrames
    ∧ (d.stepClassified u dn a).upAngleThreshold = d.upAngleThreshold
    ∧ (d.stepClassified u dn a).downAngleThreshold = d.downAngleThreshold := by
  unfold stepClassified
  cases hs : d.state <;> cases u <;> cases dn <;>
    simp_all <;> split_ifs <;> simp_all

/-- The same facts lifted to `processLandmarks`. -/
lemma processLandmarks_spec (d : PushupDetector) (f : PushupFrame) :
    ((d.processLandmarks f).count = d.count
      ∨ (d.processLandmarks f).count = d.count + 1)
    ∧ ((d.processLandmarks f).count = d.count + 1
        ↔ d.state = .Down ∧ (d.processLandmarks f).state = .Up)
    ∧ ((d.processLandmarks f).state = .Unknown → d.state = .Unknown)
    ∧ (d.processLandmarks f).requiredUpFrames = d.requiredUpFrames
    ∧ (d.processLandmarks f).upAngleThreshold = d.upAngleThreshold
    ∧ (d.processLandmarks f).downAngleThreshold = d.downAngleThreshold := by
  rcases processLandmarks_cases d f with h | ⟨up, dn, _, h⟩
  · rw [h]
    refine ⟨Or.inl rfl, ?_, fun h => h, rfl, rfl, rfl⟩
    constructor
    · intro hc; exact absurd hc (Nat.succ_ne_self d.count).symm
    · rintro ⟨h1, h2⟩; rw [h1] at h2; exact absurd h2 (by simp)
  · rw [h]; exact stepClassified_spec d up dn _

/-- Count monotonicity over an arbitrary frame sequence. -/
lemma count_le_processAll (d : PushupDetector) (fs : List PushupFrame) :
    d.count ≤ (d.processAll fs).count := by
  induction fs generalizing d with
  | nil => simp [processAll]
  | cons f fs ih =>
      have h := (processLandmarks_spec d f).1
      have h2 := ih (d.processLandmarks f)
      have : d.count ≤ (d.processLandmarks f).count := by omega
      calc d.count ≤ (d.processLandmarks f).count := this
        _ ≤ _ := h2

end PushupDetector

namespace SquatDetector

lemma processLandmarks_of_frameClass_sq {d : SquatDetector} {f : SquatFrame}
    {up dn : Bool}
    (h : frameClass f d.upAngleThreshold d.downAngleThreshold = some (up, dn)) :
    d.processLandmarks f
      = d.stepClassified up dn ((f.leftAngle.add f.rightAngle).half) := by
  unfold frameClass at h
  unfold processLandmarks
  rcases h23 : lget f.lms 23 with _ | a23 <;> rw [h23] at h <;>
    rcases h24 : lget f.lms 24 with _ | a24 <;> rw [h24] at h <;>
    rcases h25 : lget f.lms 25 with _ | a25 <;> rw [h25] at h <;>
    rcases h26 : lget f.lms 26 with _ | a26 <;> rw [h26] at h <;>
    rcases h27 : lget f.lms 27 with _ | a27 <;> rw [h27] at h <;>
    rcases h28 : lget f.lms 28 with _ | a28 <;> rw [h28] at h <;>
    simp_all

lemma processLandmarks_of_frameClass_none_sq {d : SquatDetector}
    {f : SquatFrame}
    (h : frameClass f d.upAngleThreshold d.downAngleThreshold = none) :
    d.processLandmarks f = d := by
  unfold frameClass at h
  unfold processLandmarks
  rcases h23 : lget f.lms 23 with _ | a23 <;> rw [h23] at h <;>
    rcases h24 : lget f.lms 24 with _ | a24 <;> rw [h24] at h <;>
    rcases h25 : lget f.lms 25 with _ | a25 <;> rw [h25] at h <;>
    rcases h26 : lget f.lms 26 with _ | a26 <;> rw [h26] at h <;>
    rcases h27 : lget f.lms 27 with _ | a27 <;> rw [h27] at h <;>
    rcases h28 : lget f.lms 28 with _ | a28 <;> rw [h28] at h <;>
    simp_all

/-- Any squat `processLandmarks` call is either a skip or a classified
step. -/
lemma processLandmarks_cases_sq (d : SquatDetector) (f : SquatFrame) :
    d.processLandmarks f = d
    ∨ ∃ up dn, frameClass f d.upAngleThreshold d.downAngleThreshold = some (up, dn)
        ∧ d.processLandmarks f
            = d.stepClassified up dn ((f.leftAngle.add f.rightAngle).half) := by
  rcases h : frameClass f d.upAngleThreshold d.downAngleThreshold with _ | ⟨up, dn⟩
  · exact Or.inl (processLandmarks_of_frameClass_none_sq h)
  · exact Or.inr ⟨up, dn, rfl, processLandmarks_of_frameClass_sq h⟩

/-- Core behaviour of one classified squat step. -/
lemma stepClassified_spec_sq (d : SquatDetector) (u dn : Bool) (a : JSNum) :
    ((d.stepClassified u dn a).count = d.count
      ∨ (d.stepClassified u dn a).count = d.count + 1)
    ∧ ((d.stepClassified u dn a).count = d.count + 1
        ↔ d.state = .Down ∧ (d.stepClassified u dn a).state = .Up)
    ∧ ((d.stepClassified u dn a).state = .Unknown → d.state = .Unknown)
    ∧ (d.stepClassified u dn a).requiredUpFrames = d.requiredUpFrames
    ∧ (d.stepClassified u dn a).upAngleThreshold = d.upAngleThreshold
    ∧ (d.stepClassified u dn a).downAngleThreshold = d.downAngleThreshold := by
  unfold stepClassified
  cases hs : d.state <;> cases u <;> cases dn <;>
    simp_all <;> split_ifs <;> simp_all

/-- The same facts lifted to the squat `processLandmarks`. -/
lemma processLandmarks_spec_sq (d : SquatDetector) (f : SquatFrame) :
    ((d.processLandmarks f).count = d.count
      ∨ (d.processLandmarks f).count = d.count + 1)
    ∧ ((d.processLandmarks f).count = d.count + 1
        ↔ d.state = .Down ∧ (d.processLandmarks f).state = .Up)
    ∧ ((d.processLandmarks f).state = .Unknown → d.state = .Unknown)
    ∧ (d.processLandmarks f).requiredUpFrames = d.requiredUpFrames
    ∧ (d.processLandmarks f).upAngleThreshold = d.upAngleThreshold
    ∧ (d.processLandmarks f).downAngleThreshold = d.downAngleThreshold := by
  rcases processLandmarks_cases_sq d f with h | ⟨up, dn, _, h⟩
  · rw [h]
    refine ⟨Or.inl rfl, ?_, fun h => h, rfl, rfl, rfl⟩
    constructor
    · intro hc; exact absurd hc (Nat.succ_ne_self d.count).symm
    · rintro ⟨h1, h2⟩; rw [h1] at h2; exact absurd h2 (by simp)
  · rw [h]; exact stepClassified_spec_sq d up dn _

/-- Squat count monotonicity over an arbitrary frame sequence. -/
lemma count_le_processAll_sq (d : SquatDetector) (fs : List SquatFrame) :
    d.count ≤ (d.processAll fs).count := by
  induction fs generalizing d with
  | nil => simp [processAll]
  | cons f fs ih =>
      have h := (processLandmarks_spec_sq d f).1
      have h2 := ih (d.processLandmarks f)
      have h3 : d.count ≤ (d.processLandmarks f).count := by omega
      calc d.count ≤ (d.processLandmarks f).count := h3
        _ ≤ _ := h2

end SquatDetector

/-! ## C1 -/

/-- C1: on both the push-up and the squat detector, over any sequence of
processed frames the repetition count never decreases; no single
processed frame increases it by more than 1; and it increases (by
exactly 1) precisely on frames where the state machine takes the
`Down → Up` transition. -/
theorem C1_count_monotone_incr_iff_down_up :
    (∀ (d : PushupDetector) (fs : List PushupFrame),
        d.count ≤ (d.processAll fs).count)
    ∧ (∀ (d : PushupDetector) (f : PushupFrame),
        ((d.processLandmarks f).count = d.count
          ∨ (d.processLandmarks f).count = d.count + 1)
        ∧ ((d.processLandmarks f).count = d.count + 1
            ↔ d.state = .Down ∧ (d.processLandmarks f).state = .Up))
    ∧ (∀ (d : SquatDetector) (fs : List SquatFrame),
        d.count ≤ (d.processAll fs).count)
    ∧ (∀ (d : SquatDetector) (f : SquatFrame),
        ((d.processLandmarks f).count = d.count
          ∨ (d.processLandmarks f).count = d.count + 1)
        ∧ ((d.processLandmarks f).count = d.count + 1
            ↔ d.state = .Down ∧ (d.processLandmarks f).state = .Up)) := by
  refine ⟨PushupDetector.count_le_processAll, fun d f => ?_,
    SquatDetector.count_le_processAll_sq, fun d f => ?_⟩
  · have h := PushupDetector.processLandmarks_spec d f
    exact ⟨h.1, h.2.1⟩
  · have h := SquatDetector.processLandmarks_spec_sq d f
    exact ⟨h.1, h.2.1⟩


namespace PushupDetector

/-- Predicate-level mutual exclusion, other direction. -/
lemma isDownFrame_eq_false_of_isUpFrame {ls le rs re : Landmark}
    {la ra : JSNum} {upThr downThr : ℚ}
    (h : isUpFrame ls le rs re la ra upThr = true) :
    isDownFrame ls le rs re la ra downThr = false := by
  simp only [isUpFrame, shouldersAboveElbows, armsStraight,
    Bool.and_eq_true, decide_eq_true_eq] at h
  simp only [isDownFrame, shouldersBelowElbows, elbowsBentEnough,
    Bool.and_eq_false_iff, decide_eq_false_iff_not]
  left; left
  exact not_lt_of_gt h.1.1

/-- An up-classified frame has classification `(true, false)`. -/
lemma frameClass_of_classifiesUp {f : PushupFrame} {upThr downThr : ℚ}
    (h : classifiesUp f upThr downThr = true) :
    frameClass f upThr downThr = some (true, false) := by
  unfold classifiesUp at h
  rcases hc : frameClass f upThr downThr with _ | ⟨up, dn⟩ <;> rw [hc] at h
  · exact Bool.noConfusion (h : false = true)
  · obtain ⟨ls, le, rs, re, _, _, _, _, hup, hdn⟩ := frameClass_eq_some hc
    replace h : up = true := h
    subst h
    have hdn' : dn = false := by
      rw [hdn]; exact isDownFrame_eq_false_of_isUpFrame hup.symm
    rw [hdn']

/-- A down-classified frame has classification `(false, true)`. -/
lemma frameClass_of_classifiesDown {f : PushupFrame} {upThr downThr : ℚ}
    (h : classifiesDown f upThr downThr = true) :
    frameClass f upThr downThr = some (false, true) := by
  have hup := classifiesUp_eq_false_of_classifiesDown h
  unfold classifiesDown at h
  unfold classifiesUp at hup
  rcases hc : frameClass f upThr downThr with _ | ⟨up, dn⟩ <;> rw [hc] at h
  · exact Bool.noConfusion (h : false = true)
  · rw [hc] at hup
    replace h : dn = true := h
    replace hup : up = false := hup
    rw [h, hup]

/-- In state `Down`, a down-classified frame keeps the state and count and
resets the run counter. -/
lemma down_on_downFrame {d : PushupDetector} {f : PushupFrame}
    (hs : d.state = .Down)
    (hd : classifiesDown f d.upAngleThreshold d.downAngleThreshold = true) :
    (d.processLandmarks f).state = .Down
    ∧ (d.processLandmarks f).count = d.count
    ∧ (d.processLandmarks f).consecutiveUpFrames = 0
    ∧ (d.processLandmarks f).requiredUpFrames = d.requiredUpFrames
    ∧ (d.processLandmarks f).upAngleThreshold = d.upAngleThreshold
    ∧ (d.processLandmarks f).downAngleThreshold = d.downAngleThreshold := by
  rw [processLandmarks_of_frameClass (frameClass_of_classifiesDown hd)]
  unfold stepClassified
  simp [hs]

/-- In state `Down`, an up-classified frame with the incremented run
counter still short of the requirement waits. -/
lemma down_on_upFrame_wait {d : PushupDetector} {f : PushupFrame}
    (hs : d.state = .Down)
    (hu : classifiesUp f d.upAngleThreshold d.downAngleThreshold = true)
    (hlt : d.consecutiveUpFrames + 1 < d.requiredUpFrames) :
    (d.processLandmarks f).state = .Down
    ∧ (d.processLandmarks f).count = d.count
    ∧ (d.processLandmarks f).consecutiveUpFrames = d.consecutiveUpFrames + 1
    ∧ (d.processLandmarks f).requiredUpFrames = d.requiredUpFrames
    ∧ (d.processLandmarks f).upAngleThreshold = d.upAngleThreshold
    ∧ (d.processLandmarks f).downAngleThreshold = d.downAngleThreshold := by
  rw [processLandmarks_of_frameClass (frameClass_of_classifiesUp hu)]
  have hcond : ¬ (d.requiredUpFrames ≤ d.consecutiveUpFrames + 1) := by omega
  unfold stepClassified
  simp [hs, hcond]

/-- In state `Down`, an up-classified frame that completes the required
run fires the transition: state `Up`, count incremented. -/
lemma down_on_upFrame_fire {d : PushupDetector} {f : PushupFrame}
    (hs : d.state = .Down)
    (hu : classifiesUp f d.upAngleThreshold d.downAngleThreshold = true)
    (hge : d.requiredUpFrames ≤ d.consecutiveUpFrames + 1) :
    (d.processLandmarks f).state = .Up
    ∧ (d.processLandmarks f).count = d.count + 1
    ∧ (d.processLandmarks f).requiredUpFrames = d.requiredUpFrames
    ∧ (d.processLandmarks f).upAngleThreshold = d.upAngleThreshold
    ∧ (d.processLandmarks f).downAngleThreshold = d.downAngleThreshold := by
  rw [processLandmarks_of_frameClass (frameClass_of_classifiesUp hu)]
  unfold stepClassified
  simp [hs, hge]

/-- In state `Up`, an up-classified frame changes neither state nor
count. -/
lemma up_on_upFrame {d : PushupDetector} {f : PushupFrame}
    (hs : d.state = .Up)
    (hu : classifiesUp f d.upAngleThreshold d.downAngleThreshold = true) :
    (d.processLandmarks f).state = .Up
    ∧ (d.processLandmarks f).count = d.count
    ∧ (d.processLandmarks f).requiredUpFrames = d.requiredUpFrames
    ∧ (d.processLandmarks f).upAngleThreshold = d.upAngleThreshold
    ∧ (d.processLandmarks f).downAngleThreshold = d.downAngleThreshold := by
  rw [processLandmarks_of_frameClass (frameClass_of_classifiesUp hu)]
  unfold stepClassified
  simp [hs]

/-- From state `Up`, a run of up-classified frames stays in `Up` without
counting. -/
lemma up_run_stay {d : PushupDetector} {fs : List PushupFrame}
    (hs : d.state = .Up)
    (hall : ∀ f ∈ fs, classifiesUp f d.upAngleThreshold d.downAngleThreshold = true) :
    (d.processAll fs).state = .Up ∧ (d.processAll fs).count = d.count := by
  induction fs generalizing d with
  | nil => exact ⟨hs, rfl⟩
  | cons f fs ih =>
      obtain ⟨h1, h2, _, h4, h5⟩ := up_on_upFrame hs (hall f (by simp))
      have hall' : ∀ g ∈ fs,
          classifiesUp g (d.processLandmarks f).upAngleThreshold
            (d.processLandmarks f).downAngleThreshold = true := by
        intro g hg; rw [h4, h5]; exact hall g (by simp [hg])
      obtain ⟨hA, hB⟩ := ih h1 hall'
      refine ⟨hA, ?_⟩
      show ((d.processLandmarks f).processAll fs).count = d.count
      rw [hB, h2]

/-- From state `Down`, a long enough run of up-classified frames ends in
state `Up` with the count incremented exactly once. -/
lemma down_up_run {d : PushupDetector} {fs : List PushupFrame}
    (hs : d.state = .Down)
    (hall : ∀ f ∈ fs, classifiesUp f d.upAngleThreshold d.downAngleThreshold = true)
    (hne : fs ≠ [])
    (hlen : d.requiredUpFrames ≤ d.consecutiveUpFrames + fs.length) :
    (d.processAll fs).state = .Up ∧ (d.processAll fs).count = d.count + 1 := by
  induction fs generalizing d with
  | nil => exact absurd rfl hne
  | cons f fs ih =>
      have hu := hall f (by simp)
      by_cases hge : d.requiredUpFrames ≤ d.consecutiveUpFrames + 1
      · obtain ⟨h1, h2, _, h4, h5⟩ := down_on_upFrame_fire hs hu hge
        have hall' : ∀ g ∈ fs,
            classifiesUp g (d.processLandmarks f).upAngleThreshold
              (d.processLandmarks f).downAngleThreshold = true := by
          intro g hg; rw [h4, h5]; exact hall g (by simp [hg])
        obtain ⟨hA, hB⟩ := up_run_stay h1 hall'
        refine ⟨hA, ?_⟩
        show ((d.processLandmarks f).processAll fs).count = d.count + 1
        rw [hB, h2]
      · obtain ⟨h1, h2, h3, h4, h5, h6⟩ :=
          down_on_upFrame_wait hs hu (by omega)
        cases fs with
        | nil => simp at hlen; omega
        | cons g gs =>
            have hall' : ∀ g' ∈ g :: gs,
                classifiesUp g' (d.processLandmarks f).upAngleThreshold
                  (d.processLandmarks f).downAngleThreshold = true := by
              intro g' hg; rw [h5, h6]; exact hall g' (by simp_all)
            have hlen' : (d.processLandmarks f).requiredUpFrames
                ≤ (d.processLandmarks f).consecutiveUpFrames + (g :: gs).length := by
              rw [h4, h3]; simp at hlen ⊢; omega
            obtain ⟨hA, hB⟩ := ih h1 hall' (by simp) hlen'
            refine ⟨hA, ?_⟩
            show ((d.processLandmarks f).processAll (g :: gs)).count = d.count + 1
            rw [hB, h2]

end PushupDetector


/-! ## C2 -/

/-- C2: with the push-up detector in state `Down` and
`requiredUpFrames > 1`, a single up-classified frame surrounded by
down-classified frames causes no transition and no increment; a run of
exactly `requiredUpFrames` up-classified frames from state `Down` causes
exactly one transition to `Up` and exactly one increment. -/
theorem C2_debounce_correctness :
    (∀ (d : PushupDetector) (f1 fu f2 : PushupFrame),
        d.state = .Down →
        1 < d.requiredUpFrames →
        PushupDetector.classifiesDown f1 d.upAngleThreshold d.downAngleThreshold = true →
        PushupDetector.classifiesUp fu d.upAngleThreshold d.downAngleThreshold = true →
        PushupDetector.classifiesDown f2 d.upAngleThreshold d.downAngleThreshold = true →
        (d.processAll [f1, fu, f2]).state = .Down
          ∧ (d.processAll [f1, fu, f2]).count = d.count)
    ∧ (∀ (d : PushupDetector) (fs : List PushupFrame),
        d.state = .Down →
        1 ≤ d.requiredUpFrames →
        fs.length = d.requiredUpFrames →
        (∀ f ∈ fs, PushupDetector.classifiesUp f d.upAngleThreshold d.downAngleThreshold = true) →
        (d.processAll fs).state = .Up
          ∧ (d.processAll fs).count = d.count + 1) := by
  constructor
  · intro d f1 fu f2 hs hr hd1 hu hd2
    obtain ⟨a1, a2, a3, a4, a5, a6⟩ := PushupDetector.down_on_downFrame hs hd1
    have hu1 : PushupDetector.classifiesUp fu
        (d.processLandmarks f1).upAngleThreshold
        (d.processLandmarks f1).downAngleThreshold = true := by
      rw [a5, a6]; exact hu
    have hlt : (d.processLandmarks f1).consecutiveUpFrames + 1
        < (d.processLandmarks f1).requiredUpFrames := by
      rw [a3, a4]; omega
    obtain ⟨b1, b2, b3, b4, b5, b6⟩ :=
      PushupDetector.down_on_upFrame_wait a1 hu1 hlt
    have hd2' : PushupDetector.classifiesDown f2
        ((d.processLandmarks f1).processLandmarks fu).upAngleThreshold
        ((d.processLandmarks f1).processLandmarks fu).downAngleThreshold = true := by
      rw [b5, b6, a5, a6]; exact hd2
    obtain ⟨c1, c2, _, _, _, _⟩ := PushupDetector.down_on_downFrame b1 hd2'
    constructor
    · show (((d.processLandmarks f1).processLandmarks fu).processLandmarks f2).state
        = PushupState.Down
      exact c1
    · show (((d.processLandmarks f1).processLandmarks fu).processLandmarks f2).count
        = d.count
      rw [c2, b2, a2]
  · intro d fs hs hr hlen hall
    refine PushupDetector.down_up_run hs hall ?_ ?_
    · intro h; rw [h] at hlen; simp at hlen; omega
    · omega

/-- Witness for C2 at concrete inputs: the default-configuration detector
in state `Down`, a `90°/90°` down frame, a `170°/170°` up frame, and a
run of three up frames. -/
theorem C2_witness :
    ((downStateDetector.processAll [downFrame, upFrame, downFrame]).state = .Down
      ∧ (downStateDetector.processAll [downFrame, upFrame, downFrame]).count
          = downStateDetector.count)
    ∧ ((downStateDetector.processAll [upFrame, upFrame, upFrame]).state = .Up
      ∧ (downStateDetector.processAll [upFrame, upFrame, upFrame]).count
          = downStateDetector.count + 1) :=
  ⟨C2_debounce_correctness.1 downStateDetector downFrame upFrame downFrame
      (by decide) (by decide) (by decide) (by decide) (by decide),
   C2_debounce_correctness.2 downStateDetector [upFrame, upFrame, upFrame]
      (by decide) (by decide) (by decide) (by decide)⟩

/-! ## C10 -/

/-- C10: on both detectors, a processed frame never takes the machine back
to `Unknown` — only an explicit `reset()` does. -/
theorem C10_unknown_only_on_reset :
    (∀ (d : PushupDetector) (f : PushupFrame),
        (d.processLandmarks f).state = .Unknown → d.state = .Unknown)
    ∧ (∀ (d : SquatDetector) (f : SquatFrame),
        (d.processLandmarks f).state = .Unknown → d.state = .Unknown)
    ∧ (∀ d : PushupDetector, d.reset.state = .Unknown)
    ∧ (∀ d : SquatDetector, d.reset.state = .Unknown) :=
  ⟨fun d f => (PushupDetector.processLandmarks_spec d f).2.2.1,
   fun d f => (SquatDetector.processLandmarks_spec_sq d f).2.2.1,
   fun _ => rfl, fun _ => rfl⟩

/-- Witness for C10: a skipped frame (empty landmark list) on a freshly
constructed detector keeps the state `Unknown`, so the hypothesis of the
implication is satisfiable. -/
theorem C10_witness :
    (PushupDetector.init 3 160 100).state = PushupState.Unknown
    ∧ (SquatDetector.init 2 2).state = SquatState.Unknown :=
  ⟨C10_unknown_only_on_reset.1 (PushupDetector.init 3 160 100)
      ⟨[], .nan, .nan⟩ (by decide),
   C10_unknown_only_on_reset.2.1 (SquatDetector.init 2 2)
      ⟨[], .nan, .nan⟩ (by decide)⟩

/-! ## C8 -/

/-- C8: after `reset()`, regardless of prior history, the count is 0, the
state is `Unknown`, the run counter is 0, the last angle is 0, the angle
accumulator is 0 and (part_007) the smoothed landmark set is discarded,
so the next `smooth` call re-initializes from the raw set. -/
theorem C8_reset_idempotence :
    (∀ d : PushupDetector,
        d.reset.count = 0 ∧ d.reset.state = .Unknown
        ∧ d.reset.consecutiveUpFrames = 0
        ∧ d.reset.lastAvgAngle = .val 0 ∧ d.reset.smoothedAngle = .val 0)
    ∧ (∀ d : PushupDetectorV7,
        d.reset.count = 0 ∧ d.reset.state = .Unknown
        ∧ d.reset.consecutiveUpFrames = 0
        ∧ d.reset.lastAvgAngle = .val 0 ∧ d.reset.smoothedAngle = .val 0
        ∧ d.reset.smoothedLandmarks = none)
    ∧ (∀ lms : List Landmark, PushupDetectorV7.smooth none lms = .ok lms) :=
  ⟨fun _ => ⟨rfl, rfl, rfl, rfl, rfl⟩,
   fun _ => ⟨rfl, rfl, rfl, rfl, rfl, rfl⟩,
   fun _ => rfl⟩

/-! ## C3 -/

namespace PushupDetector

/-- A `NaN` left or right angle makes the up classification false. -/
lemma isUpFrame_eq_false_of_nan {ls le rs re : Landmark} {la ra : JSNum}
    {upThr : ℚ} (h : la = .nan ∨ ra = .nan) :
    isUpFrame ls le rs re la ra upThr = false := by
  rcases h with h | h <;> subst h <;>
    simp [isUpFrame, armsStraight, JSNum.gtq]

/-- A `NaN` left or right angle makes the down classification false. -/
lemma isDownFrame_eq_false_of_nan {ls le rs re : Landmark} {la ra : JSNum}
    {downThr : ℚ} (h : la = .nan ∨ ra = .nan) :
    isDownFrame ls le rs re la ra downThr = false := by
  rcases h with h | h <;> subst h <;>
    simp [isDownFrame, elbowsBentEnough, JSNum.ltq]

/-- A step classified neither up nor down keeps the count and moves the
state only out of `Unknown` (to `Down`). -/
lemma stepClassified_neither (d : PushupDetector) (a : JSNum) :
    (d.stepClassified false false a).count = d.count
    ∧ (d.stepClassified false false a).state
        = (if d.state = .Unknown then .Down else d.state) := by
  unfold stepClassified
  cases hs : d.state <;> simp [hs]

end PushupDetector

/-- C3 counterexample: on a freshly constructed detector (state
`Unknown`), a frame with all six arm landmarks present whose computed
angles are `NaN` does NOT leave the phase unchanged: the machine moves to
`Down`. -/
theorem C3_counterexample :
    ((PushupDetector.init 3 160 100).processLandmarks nanFrame).state
        = PushupState.Down
    ∧ (PushupDetector.init 3 160 100).state = PushupState.Unknown
    ∧ ((PushupDetector.init 3 160 100).processLandmarks nanFrame).count
        = (PushupDetector.init 3 160 100).count := by decide

/-- C3 (amended): a frame missing any required arm landmark is skipped
entirely — the whole detector state is unchanged (and, the embedding
being a total function, no error is raised).  A frame with present
landmarks whose computed angle is `NaN` never changes the count, and
leaves the phase unchanged whenever the phase is `Up` or `Down`; from
`Unknown` it moves the phase to `Down` (a `NaN` angle classifies as
not-up). -/
theorem C3_unusable_frames :
    (∀ (d : PushupDetector) (f : PushupFrame),
        (lget f.lms 11 = none ∨ lget f.lms 13 = none ∨ lget f.lms 15 = none
          ∨ lget f.lms 12 = none ∨ lget f.lms 14 = none ∨ lget f.lms 16 = none) →
        d.processLandmarks f = d)
    ∧ (∀ (d : PushupDetector) (f : PushupFrame),
        (f.leftAngle = .nan ∨ f.rightAngle = .nan) →
        (d.processLandmarks f).count = d.count
        ∧ (d.state ≠ .Unknown → (d.processLandmarks f).state = d.state)
        ∧ (d.state = .Unknown →
            (d.processLandmarks f).state = .Unknown
            ∨ (d.processLandmarks f).state = .Down)) := by
  constructor
  · intro d f h
    apply PushupDetector.processLandmarks_of_frameClass_none
    unfold PushupDetector.frameClass
    rcases h with h | h | h | h | h | h <;> rw [h] <;>
      rcases h11 : lget f.lms 11 with _ | ls <;>
      rcases h13 : lget f.lms 13 with _ | le <;>
      rcases h15 : lget f.lms 15 with _ | lw <;>
      rcases h12 : lget f.lms 12 with _ | rs <;>
      rcases h14 : lget f.lms 14 with _ | re <;>
      rcases h16 : lget f.lms 16 with _ | rw <;>
      simp_all
  · intro d f h
    rcases PushupDetector.processLandmarks_cases d f with heq | ⟨up, dn, hc, heq⟩
    · rw [heq]
      exact ⟨rfl, fun _ => rfl, fun hu => Or.inl hu⟩
    · obtain ⟨ls, le, rs, re, _, _, _, _, hup, hdn⟩ :=
        PushupDetector.frameClass_eq_some hc
      rw [PushupDetector.isUpFrame_eq_false_of_nan h] at hup
      rw [PushupDetector.isDownFrame_eq_false_of_nan h] at hdn
      subst hup; subst hdn
      rw [heq]
      obtain ⟨hcnt, hst⟩ := PushupDetector.stepClassified_neither d
        ((f.leftAngle.add f.rightAngle).half)
      refine ⟨hcnt, fun hne => ?_, fun hu => ?_⟩
      · rw [hst]; simp [hne]
      · rw [hst]; simp [hu]

/-- Witness for C3 at concrete inputs: an empty landmark list is skipped
wholesale, and a `NaN`-angle frame on a detector in phase `Down` changes
neither count nor phase. -/
theorem C3_witness :
    (PushupDetector.init 3 160 100).processLandmarks ⟨[], .val 150, .val 150⟩
        = PushupDetector.init 3 160 100
    ∧ (downStateDetector.processLandmarks nanFrame).count = downStateDetector.count
    ∧ (downStateDetector.processLandmarks nanFrame).state = downStateDetector.state :=
  ⟨C3_unusable_frames.1 (PushupDetector.init 3 160 100)
      ⟨[], .val 150, .val 150⟩ (Or.inl (by decide)),
   (C3_unusable_frames.2 downStateDetector nanFrame (Or.inl rfl)).1,
   (C3_unusable_frames.2 downStateDetector nanFrame (Or.inl rfl)).2.1 (by decide)⟩

/-! ## C5 -/

/-- If each of two angles exceeds a threshold, so does their average. -/
lemma avg_gtq_of_both {la ra : JSNum} {t : ℚ}
    (hla : la.gtq t = true) (hra : ra.gtq t = true) :
    ((la.add ra).half).gtq t = true := by
  cases la with
  | nan => simp [JSNum.gtq] at hla
  | val a =>
      cases ra with
      | nan => simp [JSNum.gtq] at hra
      | val b =>
          simp [JSNum.gtq, JSNum.add, JSNum.half] at *
          linarith

/-- C5 counterexample: with shoulders above elbows, left angle 180° and
right angle 150°, the average (165°) exceeds the 160° threshold — the
spec-modelled averaged predicate holds — yet the code's `isUpFrame` is
false because the right arm fails the per-arm check.  The frame-level
classification agrees. -/
theorem C5_counterexample :
    specIsUpFrame ⟨0, 0, 0, none⟩ ⟨0, 1, 0, none⟩ ⟨1, 0, 0, none⟩ ⟨1, 1, 0, none⟩
        (.val 180) (.val 150) = true
    ∧ PushupDetector.isUpFrame ⟨0, 0, 0, none⟩ ⟨0, 1, 0, none⟩ ⟨1, 0, 0, none⟩
        ⟨1, 1, 0, none⟩ (.val 180) (.val 150) 160 = false
    ∧ PushupDetector.classifiesUp avgUpFrame 160 100 = false := by decide

/-- C5 (amended): `isUpFrame` requires the shoulders above the elbows and
EACH arm's elbow angle above the 160° threshold (not the average); this
per-arm check is strictly stronger than the averaged one: every code
up frame satisfies the spec's averaged predicate, not conversely. -/
theorem C5_is_up_frame_per_arm :
    (∀ (ls le rs re : Landmark) (la ra : JSNum),
        PushupDetector.isUpFrame ls le rs re la ra 160
          = (PushupDetector.shouldersAboveElbows ls le rs re
              && (la.gtq 160 && ra.gtq 160)))
    ∧ (∀ (ls le rs re : Landmark) (la ra : JSNum),
        PushupDetector.isUpFrame ls le rs re la ra 160 = true →
        specIsUpFrame ls le rs re la ra = true) := by
  refine ⟨fun _ _ _ _ _ _ => rfl, fun ls le rs re la ra h => ?_⟩
  unfold PushupDetector.isUpFrame PushupDetector.armsStraight at h
  unfold specIsUpFrame
  simp only [Bool.and_eq_true] at h ⊢
  exact ⟨h.1, avg_gtq_of_both h.2.1 h.2.2⟩

/-- Witness for C5: the 170°/170° up frame is an up frame for the code
and satisfies the spec-modelled averaged predicate. -/
theorem C5_witness :
    specIsUpFrame ⟨0, 0, 0, none⟩ ⟨0, 1, 0, none⟩ ⟨1, 0, 0, none⟩ ⟨1, 1, 0, none⟩
        (.val 170) (.val 170) = true :=
  C5_is_up_frame_per_arm.2 ⟨0, 0, 0, none⟩ ⟨0, 1, 0, none⟩ ⟨1, 0, 0, none⟩
    ⟨1, 1, 0, none⟩ (.val 170) (.val 170) (by decide)

/-! ## C6 -/

/-- C6 counterexample: with shoulders below elbows and both elbow angles
120°, the spec-modelled position-only predicate holds, but the current
revision's `isDownFrame` is false — it additionally requires both angles
below the 100° threshold.  The frame-level classification agrees. -/
theorem C6_counterexample :
    specIsDownFrame ⟨0, 2, 0, none⟩ ⟨0, 1, 0, none⟩ ⟨1, 2, 0, none⟩
        ⟨1, 1, 0, none⟩ = true
    ∧ PushupDetector.isDownFrame ⟨0, 2, 0, none⟩ ⟨0, 1, 0, none⟩ ⟨1, 2, 0, none⟩
        ⟨1, 1, 0, none⟩ (.val 120) (.val 120) 100 = false
    ∧ PushupDetector.classifiesDown shallowDownFrame 160 100 = false := by decide

/-- C6 (amended): the position-only down classification holds for the
part_007 revision (`isDownFrame = shouldersBelowElbows`, no angle
condition); the current revision in src/lib/PushupDetector.ts
additionally requires both elbow angles below the 100° down threshold,
so its down frames are a strict subset of the spec's. -/
theorem C6_is_down_frame :
    (∀ ls le rs re : Landmark,
        PushupDetectorV7.isDownFrame ls le rs re = specIsDownFrame ls le rs re)
    ∧ (∀ (ls le rs re : Landmark) (la ra : JSNum),
        PushupDetector.isDownFrame ls le rs re la ra 100
          = (specIsDownFrame ls le rs re
              && PushupDetector.elbowsBentEnough la ra 100))
    ∧ (∀ (ls le rs re : Landmark) (la ra : JSNum),
        PushupDetector.isDownFrame ls le rs re la ra 100 = true →
        specIsDownFrame ls le rs re = true) := by
  refine ⟨fun _ _ _ _ => rfl, fun _ _ _ _ _ _ => rfl,
    fun ls le rs re la ra h => ?_⟩
  unfold PushupDetector.isDownFrame at h
  simp only [Bool.and_eq_true] at h
  exact h.1

/-- Witness for C6: the 90°/90° down frame is a down frame for the code
and satisfies the spec-modelled position-only predicate. -/
theorem C6_witness :
    specIsDownFrame ⟨0, 2, 0, none⟩ ⟨0, 1, 0, none⟩ ⟨1, 2, 0, none⟩
        ⟨1, 1, 0, none⟩ = true :=
  C6_is_down_frame.2.2 ⟨0, 2, 0, none⟩ ⟨0, 1, 0, none⟩ ⟨1, 2, 0, none⟩
    ⟨1, 1, 0, none⟩ (.val 90) (.val 90) (by decide)

/-! ## C7 -/

/-- C7 counterexample: a later `smooth` call whose input (length 1) is
shorter than the stored smoothing state (length 2) returns the blended
state of length 2 — not the input's length. -/
theorem C7_counterexample :
    (PushupDetectorV7.smooth
        (some [⟨0, 0, 0, none⟩, ⟨0, 0, 0, none⟩])
        [⟨0, 0, 0, none⟩]).toOption.map List.length = some 2
    ∧ ([(⟨0, 0, 0, none⟩ : Landmark)].length = 1) := by decide

/-- C7 (amended): the first `smooth` call after reset returns the raw set
unchanged; every later call whose input length equals the stored
smoothing state's length (always the case for the pose model's
fixed-length topology) blends per index — each coordinate channel becomes
`prev * 0.8 + raw * 0.2` with a missing visibility reading as 0.5 — and
returns a set of the same length as the input.  With a shorter input the
untouched tail of the state is kept, so the result is longer than the
input (and a longer input faults); the function is pure, hence
deterministic given the prior state.  The second squat revision's
`smooth` is the same function. -/
theorem C7_smooth_ema :
    (∀ lms : List Landmark, PushupDetectorV7.smooth none lms = .ok lms)
    ∧ (∀ prev lms : List Landmark, prev.length = lms.length →
        PushupDetectorV7.smooth (some prev) lms
          = .ok (List.zipWith PushupDetectorV7.smoothLandmark prev lms))
    ∧ (∀ prev lms out : List Landmark, prev.length = lms.length →
        PushupDetectorV7.smooth (some prev) lms = .ok out →
        out.length = lms.length)
    ∧ (∀ p c : Landmark,
        (PushupDetectorV7.smoothLandmark p c).x = p.x * (4/5) + c.x * (1/5)
        ∧ (PushupDetectorV7.smoothLandmark p c).y = p.y * (4/5) + c.y * (1/5)
        ∧ (PushupDetectorV7.smoothLandmark p c).z = p.z * (4/5) + c.z * (1/5)
        ∧ (PushupDetectorV7.smoothLandmark p c).visibility
            = some ((p.visibility.getD (1/2)) * (4/5)
                + (c.visibility.getD (1/2)) * (1/5)))
    ∧ SquatDetectorV2.smooth = PushupDetectorV7.smooth := by
  have hz : ∀ prev lms : List Landmark, prev.length = lms.length →
      PushupDetectorV7.smooth (some prev) lms
        = .ok (List.zipWith PushupDetectorV7.smoothLandmark prev lms) := by
    intro prev lms h
    show (if prev.length < lms.length then Except.error ()
        else Except.ok (List.zipWith PushupDetectorV7.smoothLandmark prev lms
          ++ List.drop lms.length prev))
      = Except.ok (List.zipWith PushupDetectorV7.smoothLandmark prev lms)
    rw [if_neg (by omega), ← h, List.drop_length, List.append_nil]
  refine ⟨fun _ => rfl, hz, ?_, ?_, rfl⟩
  · intro prev lms out h hsm
    rw [hz prev lms h] at hsm
    cases hsm
    rw [List.length_zipWith, h, Nat.min_self]
  · intro p c
    refine ⟨?_, ?_, ?_, ?_⟩ <;> unfold PushupDetectorV7.smoothLandmark <;>
      norm_num

/-- Witness for C7: a concrete one-landmark blend through the theorem. -/
theorem C7_witness :
    PushupDetectorV7.smooth (some [⟨0, 0, 0, some 1⟩]) [⟨1, 1, 1, none⟩]
      = .ok (List.zipWith PushupDetectorV7.smoothLandmark
          [⟨0, 0, 0, some 1⟩] [⟨1, 1, 1, none⟩]) :=
  C7_smooth_ema.2.1 [⟨0, 0, 0, some 1⟩] [⟨1, 1, 1, none⟩] rfl

/-! ## C4 -/

/-- The per-entry visibility test of the leg check, unpacked. -/
lemma visOk_iff (o : Option Landmark) :
    (match o with
      | some l => decide (l.visibility.getD 0 > LEG_VISIBILITY_THRESHOLD)
      | none => false) = true
      ↔ ∃ l, o = some l ∧ LEG_VISIBILITY_THRESHOLD < l.visibility.getD 0 := by
  cases o <;> simp

/-- The code's leg-visibility check coincides with the spec-modelled
"at least one of the eight lower-body landmarks is visible above 0.3". -/
lemma legVisibleCheck_iff (lms : LandmarkList) :
    legVisibleCheck lms = true ↔ specLegVisible lms := by
  unfold legVisibleCheck specLegVisible
  simp only [List.any_cons, List.any_nil, Bool.or_eq_true, visOk_iff,
    List.mem_cons, List.not_mem_nil, or_false]
  constructor
  · rintro (h | h | h | h | h | h | h | (h | hF))
    · exact ⟨23, by simp, h⟩
    · exact ⟨24, by simp, h⟩
    · exact ⟨25, by simp, h⟩
    · exact ⟨26, by simp, h⟩
    · exact ⟨27, by simp, h⟩
    · exact ⟨28, by simp, h⟩
    · exact ⟨31, by simp, h⟩
    · exact ⟨32, by simp, h⟩
    · exact absurd hF (by simp)
  · rintro ⟨i, hi, h⟩
    rcases hi with rfl | rfl | rfl | rfl | rfl | rfl | rfl | rfl
    · exact .inl h
    · exact .inr (.inl h)
    · exact .inr (.inr (.inl h))
    · exact .inr (.inr (.inr (.inl h)))
    · exact .inr (.inr (.inr (.inr (.inl h))))
    · exact .inr (.inr (.inr (.inr (.inr (.inl h)))))
    · exact .inr (.inr (.inr (.inr (.inr (.inr (.inl h))))))
    · exact .inr (.inr (.inr (.inr (.inr (.inr (.inr (.inl h)))))))

namespace PushupDetectorV8

/-- The classified step never touches the visibility miss-counter. -/
lemma stepClassified_framesBelowVisibility (d : PushupDetectorV8)
    (lv : Bool) (a : JSNum) :
    (d.stepClassified lv a).framesBelowVisibility = d.framesBelowVisibility := by
  unfold stepClassified
  cases hs : d.state <;> simp [hs] <;> split_ifs <;> rfl

/-- The part_008 visibility gate, on frames passing the arm presence
check: a leg-visible frame zeroes the miss-counter; a non-visible frame
increments it, and when the incremented counter exceeds the tolerance the
frame does nothing else at all. -/
lemma gate_behaviour_v8 (d : PushupDetectorV8) (f : PushupFrame)
    (h11 : (lget f.lms 11).isSome = true) (h13 : (lget f.lms 13).isSome = true)
    (h15 : (lget f.lms 15).isSome = true) (h12 : (lget f.lms 12).isSome = true)
    (h14 : (lget f.lms 14).isSome = true) (h16 : (lget f.lms 16).isSome = true) :
    (legVisibleCheck f.lms = true →
        (d.processLandmarks f).framesBelowVisibility = 0)
    ∧ (legVisibleCheck f.lms = false →
        (d.processLandmarks f).framesBelowVisibility
            = d.framesBelowVisibility + 1
        ∧ (LEG_MISSING_FRAMES < d.framesBelowVisibility + 1 →
            d.processLandmarks f
              = { d with framesBelowVisibility := d.framesBelowVisibility + 1 })) := by
  obtain ⟨ls, hls⟩ := Option.isSome_iff_exists.mp h11
  obtain ⟨le, hle⟩ := Option.isSome_iff_exists.mp h13
  obtain ⟨lw, hlw⟩ := Option.isSome_iff_exists.mp h15
  obtain ⟨rs, hrs⟩ := Option.isSome_iff_exists.mp h12
  obtain ⟨re, hre⟩ := Option.isSome_iff_exists.mp h14
  obtain ⟨rw, hrw⟩ := Option.isSome_iff_exists.mp h16
  unfold processLandmarks
  rw [hls, hle, hlw, hrs, hre, hrw]
  by_cases hv : legVisibleCheck f.lms
  · simp only [hv]
    refine ⟨fun _ => ?_, fun hfalse => Bool.noConfusion hfalse⟩
    simp [stepClassified_framesBelowVisibility]
  · replace hv : legVisibleCheck f.lms = false := by simpa using hv
    simp only [hv]
    refine ⟨fun htrue => Bool.noConfusion htrue, fun _ => ?_⟩
    by_cases hskip : LEG_MISSING_FRAMES < d.framesBelowVisibility + 1
    · simp [hskip]
    · simp [hskip, stepClassified_framesBelowVisibility]

end PushupDetectorV8

namespace SquatDetectorV9

/-- The accepted step never touches the visibility miss-counter. -/
lemma stepAccepted_framesBelowVisibility (d : SquatDetectorV9)
    (lv : Bool) (avg torso : ℚ) :
    (d.stepAccepted lv avg torso).framesBelowVisibility
      = d.framesBelowVisibility := by
  unfold stepAccepted
  dsimp only
  split_ifs <;> rfl

/-- The part_009 visibility gate, on frames passing the presence check. -/
lemma gate_behaviour_v9 (d : SquatDetectorV9) (f : SquatFrameV9)
    (h23 : (lget f.lms 23).isSome = true) (h24 : (lget f.lms 24).isSome = true)
    (h25 : (lget f.lms 25).isSome = true) (h26 : (lget f.lms 26).isSome = true)
    (h27 : (lget f.lms 27).isSome = true) (h28 : (lget f.lms 28).isSome = true)
    (h11 : (lget f.lms 11).isSome = true) (h12 : (lget f.lms 12).isSome = true) :
    (legVisibleCheck f.lms = true →
        (d.processLandmarks f).framesBelowVisibility = 0)
    ∧ (legVisibleCheck f.lms = false →
        (d.processLandmarks f).framesBelowVisibility
            = d.framesBelowVisibility + 1
        ∧ (LEG_MISSING_FRAMES < d.framesBelowVisibility + 1 →
            d.processLandmarks f
              = { d with framesBelowVisibility := d.framesBelowVisibility + 1 })) := by
  unfold processLandmarks
  rw [if_neg (by simp [h23, h24, h25, h26, h27, h28, h11, h12])]
  by_cases hv : legVisibleCheck f.lms = true
  · refine ⟨fun _ => ?_, fun hfalse => by rw [hv] at hfalse; exact Bool.noConfusion hfalse⟩
    rw [hv]
    dsimp only
    rw [Bool.not_true, Bool.false_and,
      if_neg (show ¬(false = true) from by decide),
      if_neg (show ¬(false = true) from by decide)]
    dsimp only
    rcases hlast : d.torsoHistory.getLast? with _ | p
    · rw [stepAccepted_framesBelowVisibility]
    · dsimp only
      split_ifs
      · rfl
      · rw [stepAccepted_framesBelowVisibility]
  · replace hv : legVisibleCheck f.lms = false := by
      cases hb : legVisibleCheck f.lms
      · rfl
      · exact absurd hb hv
    refine ⟨fun htrue => by rw [hv] at htrue; exact Bool.noConfusion htrue,
      fun _ => ?_⟩
    rw [hv]
    dsimp only
    rw [Bool.not_false, Bool.true_and]
    by_cases hskip : LEG_MISSING_FRAMES < d.framesBelowVisibility + 1
    · rw [if_pos (by simpa using hskip)]
      exact ⟨rfl, fun _ => rfl⟩
    · rw [if_neg (by simpa using hskip),
        if_pos (show true = true from rfl)]
      dsimp only
      refine ⟨?_, fun hcontra => absurd hcontra hskip⟩
      rcases hlast : d.torsoHistory.getLast? with _ | p
      · rw [stepAccepted_framesBelowVisibility]
      · dsimp only
        split_ifs
        · rfl
        · rw [stepAccepted_framesBelowVisibility]

end SquatDetectorV9

/-- C4 counterexample: a frame whose legs are fully visible (left hip
visibility 1) but whose wrists are absent is dropped by the earlier
arm-presence check, so the miss-counter is NOT reset: it stays 1. -/
theorem C4_counterexample :
    legVisibleCheck noWristLms = true
    ∧ ((⟨.WaitingForUp, 0, 0, 3, 1, false⟩ : PushupDetectorV8).processLandmarks
        ⟨noWristLms, .val 170, .val 170⟩).framesBelowVisibility = 1 := by decide

/-- C4 (amended): the leg-visibility policy, restricted to frames that
pass the required-landmark presence check (which precedes the gate;
frames failing it are skipped without touching the miss-counter).  A
frame is leg-visible iff one of the eight lower-body landmarks has
visibility strictly above 0.3 (missing visibility counting as 0); every
such leg-visible frame resets the miss-counter to 0; every such
non-leg-visible frame increments it, and when the incremented counter
exceeds the tolerance of 2 the frame is skipped entirely (phase and
count unchanged) — until a leg-visible frame arrives, which is processed
and resets the counter.  Holds for both part_008 and part_009. -/
theorem C4_leg_visibility_gate :
    (∀ lms : LandmarkList, legVisibleCheck lms = true ↔ specLegVisible lms)
    ∧ (∀ (d : PushupDetectorV8) (f : PushupFrame),
        (lget f.lms 11).isSome = true → (lget f.lms 13).isSome = true →
        (lget f.lms 15).isSome = true → (lget f.lms 12).isSome = true →
        (lget f.lms 14).isSome = true → (lget f.lms 16).isSome = true →
        (legVisibleCheck f.lms = true →
            (d.processLandmarks f).framesBelowVisibility = 0)
        ∧ (legVisibleCheck f.lms = false →
            (d.processLandmarks f).framesBelowVisibility
                = d.framesBelowVisibility + 1
            ∧ (LEG_MISSING_FRAMES < d.framesBelowVisibility + 1 →
                d.processLandmarks f
                  = { d with framesBelowVisibility := d.framesBelowVisibility + 1 })))
    ∧ (∀ (d : SquatDetectorV9) (f : SquatFrameV9),
        (lget f.lms 23).isSome = true → (lget f.lms 24).isSome = true →
        (lget f.lms 25).isSome = true → (lget f.lms 26).isSome = true →
        (lget f.lms 27).isSome = true → (lget f.lms 28).isSome = true →
        (lget f.lms 11).isSome = true → (lget f.lms 12).isSome = true →
        (legVisibleCheck f.lms = true →
            (d.processLandmarks f).framesBelowVisibility = 0)
        ∧ (legVisibleCheck f.lms = false →
            (d.processLandmarks f).framesBelowVisibility
                = d.framesBelowVisibility + 1
            ∧ (LEG_MISSING_FRAMES < d.framesBelowVisibility + 1 →
                d.processLandmarks f
                  = { d with framesBelowVisibility := d.framesBelowVisibility + 1 }))) :=
  ⟨legVisibleCheck_iff,
   fun d f h11 h13 h15 h12 h14 h16 =>
     PushupDetectorV8.gate_behaviour_v8 d f h11 h13 h15 h12 h14 h16,
   fun d f h23 h24 h25 h26 h27 h28 h11 h12 =>
     SquatDetectorV9.gate_behaviour_v9 d f h23 h24 h25 h26 h27 h28 h11 h12⟩

/-- Witness for C4: a leg-visible frame resets the miss-counter from 1 to
0 on both the part_008 and the part_009 detector. -/
theorem C4_witness :
    ((⟨.WaitingForUp, 0, 0, 3, 1, false⟩ : PushupDetectorV8).processLandmarks
        ⟨armLegLms (some 1), .val 170, .val 170⟩).framesBelowVisibility = 0
    ∧ (({ SquatDetectorV9.init with framesBelowVisibility := 1 }
        : SquatDetectorV9).processLandmarks (v9Frame 130)).framesBelowVisibility
          = 0 :=
  ⟨(C4_leg_visibility_gate.2.1 ⟨.WaitingForUp, 0, 0, 3, 1, false⟩
      ⟨armLegLms (some 1), .val 170, .val 170⟩ (by decide) (by decide)
      (by decide) (by decide) (by decide) (by decide)).1 (by decide),
   (C4_leg_visibility_gate.2.2
      { SquatDetectorV9.init with framesBelowVisibility := 1 } (v9Frame 130)
      (by decide) (by decide) (by decide) (by decide) (by decide) (by decide)
      (by decide) (by decide)).1 (by decide)⟩

/-! ## C9 -/

namespace PushupDetector

/-- An angle inside the hysteresis dead zone fails the straight-arm
check. -/
lemma armsStraight_eq_false_of_inHyst {la ra : JSNum}
    (hla : inHyst la = true) : armsStraight la ra 160 = false := by
  cases la with
  | nan => simp [inHyst] at hla
  | val q =>
      simp only [inHyst, decide_eq_true_eq] at hla
      unfold armsStraight JSNum.gtq
      have : ¬ (160 < q) := by linarith [hla.2]
      simp [this]

/-- A step not classified up never changes the count. -/
lemma stepClassified_count_of_notUp (d : PushupDetector) (dn : Bool)
    (a : JSNum) : (d.stepClassified false dn a).count = d.count := by
  unfold stepClassified
  cases hs : d.state <;> cases dn <;> simp [hs]

/-- A frame whose (left) measured angle lies in the dead zone never
changes the count (with the default 160° up threshold). -/
lemma count_of_hyst_frame {d : PushupDetector} {f : PushupFrame}
    (hthr : d.upAngleThreshold = 160)
    (hla : inHyst f.leftAngle = true) :
    (d.processLandmarks f).count = d.count := by
  rcases processLandmarks_cases d f with h | ⟨up, dn, hc, h⟩
  · rw [h]
  · obtain ⟨ls, le, rs, re, _, _, _, _, hup, _⟩ := frameClass_eq_some hc
    rw [hthr] at hup
    have hupf : up = false := by
      rw [hup]
      unfold isUpFrame
      rw [armsStraight_eq_false_of_inHyst hla, Bool.and_false]
    subst hupf
    rw [h, stepClassified_count_of_notUp]

/-- Over a sequence of dead-zone frames the count is constant. -/
lemma count_const_of_hyst {d : PushupDetector} {fs : List PushupFrame}
    (hthr : d.upAngleThreshold = 160)
    (hall : ∀ f ∈ fs, inHyst f.leftAngle = true) :
    (d.processAll fs).count = d.count := by
  induction fs generalizing d with
  | nil => rfl
  | cons f fs ih =>
      have h1 := count_of_hyst_frame hthr (hall f (by simp))
      have hthr' : (d.processLandmarks f).upAngleThreshold = 160 := by
        rw [(processLandmarks_spec d f).2.2.2.2.1, hthr]
      have h2 := ih hthr' (fun g hg => hall g (by simp [hg]))
      show ((d.processLandmarks f).processAll fs).count = d.count
      rw [h2, h1]

end PushupDetector

namespace SquatDetectorV9

/-- Members of a pushed window come from the old window or are the new
value. -/
lemma mem_pushWindow {h : List ℚ} {x y : ℚ} (hy : y ∈ pushWindow h x) :
    y ∈ h ∨ y = x := by
  unfold pushWindow at hy
  dsimp only at hy
  split_ifs at hy
  · have hy2 := List.mem_of_mem_tail hy
    rcases List.mem_append.mp hy2 with h1 | h1
    · exact Or.inl h1
    · exact Or.inr (by simpa using h1)
  · rcases List.mem_append.mp hy with h1 | h1
    · exact Or.inl h1
    · exact Or.inr (by simpa using h1)

/-- A pushed window is never empty. -/
lemma pushWindow_ne_nil (h : List ℚ) (x : ℚ) : pushWindow h x ≠ [] := by
  apply List.length_pos.mp
  unfold pushWindow
  dsimp only
  split_ifs with hlen
  · simp only [List.length_tail, List.length_append, List.length_cons,
      List.length_nil] at hlen ⊢
    simp only [ANGLE_WINDOW] at hlen
    omega
  · simp

/-- Strict upper bound on a left fold of additions. -/
lemma foldl_add_lt_of_lt {hi : ℚ} :
    ∀ (h : List ℚ), h ≠ [] → (∀ a ∈ h, a < hi) → ∀ acc : ℚ,
      h.foldl (· + ·) acc < acc + hi * h.length
  | [], hne, _, _ => absurd rfl hne
  | a :: t, _, hall, acc => by
      show t.foldl (· + ·) (acc + a) < acc + hi * (a :: t).length
      rcases eq_or_ne t [] with ht | ht
      · subst ht
        have ha := hall a (by simp)
        simp only [List.foldl_nil, List.length_cons, List.length_nil]
        push_cast
        linarith
      · have hrec := foldl_add_lt_of_lt t ht
          (fun b hb => hall b (by simp [hb])) (acc + a)
        have ha := hall a (by simp)
        simp only [List.length_cons] at hrec ⊢
        push_cast at hrec ⊢
        linarith

/-- Strict lower bound on a left fold of additions. -/
lemma lt_foldl_add_of_lt {lo : ℚ} :
    ∀ (h : List ℚ), h ≠ [] → (∀ a ∈ h, lo < a) → ∀ acc : ℚ,
      acc + lo * h.length < h.foldl (· + ·) acc
  | [], hne, _, _ => absurd rfl hne
  | a :: t, _, hall, acc => by
      show acc + lo * (a :: t).length < t.foldl (· + ·) (acc + a)
      rcases eq_or_ne t [] with ht | ht
      · subst ht
        have ha := hall a (by simp)
        simp only [List.foldl_nil, List.length_cons, List.length_nil]
        push_cast
        linarith
      · have hrec := lt_foldl_add_of_lt t ht
          (fun b hb => hall b (by simp [hb])) (acc + a)
        have ha := hall a (by simp)
        simp only [List.length_cons] at hrec ⊢
        push_cast at hrec ⊢
        linarith

/-- The mean of a nonempty list of values strictly inside an interval
lies strictly inside that interval. -/
lemma listMean_bounds {h : List ℚ} {lo hi : ℚ} (hne : h ≠ [])
    (hall : ∀ a ∈ h, lo < a ∧ a < hi) :
    lo < listMean h ∧ listMean h < hi := by
  have hlen : (0 : ℚ) < h.length := by
    cases h with
    | nil => exact absurd rfl hne
    | cons a t => exact_mod_cast Nat.succ_pos t.length
  have hup := foldl_add_lt_of_lt h hne (fun a ha => (hall a ha).2) 0
  have hlo := lt_foldl_add_of_lt h hne (fun a ha => (hall a ha).1) 0
  rw [zero_add] at hup hlo
  unfold listMean
  constructor
  · rw [lt_div_iff₀ hlen]
    linarith
  · rw [div_lt_iff₀ hlen]
    linarith

/-- One accepted step preserves the dead-zone invariant: with the window
mean strictly between the thresholds both streak counters reset, so
`isDown` stays false and the count stays 0. -/
lemma stepAccepted_hyst {d : SquatDetectorV9} {lv : Bool} {avg torso : ℚ}
    (inv1 : ∀ a ∈ d.angleHistory, 100 < a ∧ a < 160)
    (inv4 : d.isDown = false) (inv5 : d.count = 0)
    (havg : 100 < avg ∧ avg < 160) :
    (∀ a ∈ (d.stepAccepted lv avg torso).angleHistory, 100 < a ∧ a < 160)
    ∧ (d.stepAccepted lv avg torso).downFrameCount = 0
    ∧ (d.stepAccepted lv avg torso).upFrameCount = 0
    ∧ (d.stepAccepted lv avg torso).isDown = false
    ∧ (d.stepAccepted lv avg torso).count = 0 := by
  have hmem : ∀ a ∈ pushWindow d.angleHistory avg, 100 < a ∧ a < 160 := by
    intro a ha
    rcases mem_pushWindow ha with h | h
    · exact inv1 a h
    · rw [h]; exact havg
  have hmean := listMean_bounds (pushWindow_ne_nil d.angleHistory avg) hmem
  have hnd : ¬ (listMean (pushWindow d.angleHistory avg) < DOWN_THRESHOLD) := by
    unfold DOWN_THRESHOLD; linarith [hmean.1]
  have hnu : ¬ (listMean (pushWindow d.angleHistory avg) > UP_THRESHOLD) := by
    unfold UP_THRESHOLD; linarith [hmean.2]
  have hnd2 : decide (listMean (pushWindow d.angleHistory avg)
      < DOWN_THRESHOLD) = false := decide_eq_false hnd
  have hnu2 : decide (listMean (pushWindow d.angleHistory avg)
      > UP_THRESHOLD) = false := decide_eq_false hnu
  unfold stepAccepted
  dsimp only
  rw [hnd2, hnu2]
  simp only [Bool.false_eq_true, if_false]
  split_ifs with hA hB hC
  · exact absurd hA (by simp [FRAME_COUNT_THRESHOLD])
  · exact absurd hA (by simp [FRAME_COUNT_THRESHOLD])
  · exact absurd hC (by simp [FRAME_COUNT_THRESHOLD])
  · exact ⟨hmem, rfl, rfl, inv4, inv5⟩

/-- Any part_009 `processLandmarks` call either only bumps or resets the
miss-counter, or runs one accepted step from such a bumped state. -/
lemma processLandmarks_shape (d : SquatDetectorV9) (f : SquatFrameV9) :
    (∃ n, d.processLandmarks f = { d with framesBelowVisibility := n })
    ∨ ∃ lv n, d.processLandmarks f
        = ({ d with framesBelowVisibility := n }
            : SquatDetectorV9).stepAccepted lv
            ((f.leftAngle + f.rightAngle) / 2) f.torsoAngle := by
  unfold processLandmarks
  split_ifs with h1
  · exact Or.inl ⟨d.framesBelowVisibility, rfl⟩
  · dsimp only
    split_ifs with h2 h3
    · exact Or.inl ⟨d.framesBelowVisibility + 1, rfl⟩
    · rcases hlast : ({ d with
          framesBelowVisibility := d.framesBelowVisibility + 1 }
          : SquatDetectorV9).torsoHistory.getLast? with _ | p
      · exact Or.inr ⟨legVisibleCheck f.lms, d.framesBelowVisibility + 1, rfl⟩
      · dsimp only
        split_ifs
        · exact Or.inl ⟨d.framesBelowVisibility + 1, rfl⟩
        · exact Or.inr ⟨legVisibleCheck f.lms, d.framesBelowVisibility + 1, rfl⟩
    · rcases hlast : ({ d with framesBelowVisibility := 0 }
          : SquatDetectorV9).torsoHistory.getLast? with _ | p
      · exact Or.inr ⟨legVisibleCheck f.lms, 0, rfl⟩
      · dsimp only
        split_ifs
        · exact Or.inl ⟨0, rfl⟩
        · exact Or.inr ⟨legVisibleCheck f.lms, 0, rfl⟩

/-- One processed frame with both knee angles in the dead zone preserves
the invariant. -/
lemma hyst_invariant_step {d : SquatDetectorV9} {f : SquatFrameV9}
    (inv1 : ∀ a ∈ d.angleHistory, 100 < a ∧ a < 160)
    (inv4 : d.isDown = false) (inv5 : d.count = 0)
    (hfl : 100 < f.leftAngle ∧ f.leftAngle < 160)
    (hfr : 100 < f.rightAngle ∧ f.rightAngle < 160) :
    (∀ a ∈ (d.processLandmarks f).angleHistory, 100 < a ∧ a < 160)
    ∧ (d.processLandmarks f).isDown = false
    ∧ (d.processLandmarks f).count = 0 := by
  have havg : 100 < (f.leftAngle + f.rightAngle) / 2
      ∧ (f.leftAngle + f.rightAngle) / 2 < 160 := by
    constructor <;> [linarith [hfl.1, hfr.1]; linarith [hfl.2, hfr.2]]
  rcases processLandmarks_shape d f with ⟨n, h⟩ | ⟨lv, n, h⟩
  · rw [h]
    exact ⟨inv1, inv4, inv5⟩
  · rw [h]
    have hstep := @stepAccepted_hyst
      { d with framesBelowVisibility := n } lv
      ((f.leftAngle + f.rightAngle) / 2) f.torsoAngle inv1 inv4 inv5 havg
    exact ⟨hstep.1, hstep.2.2.2.1, hstep.2.2.2.2⟩

/-- Over any sequence of dead-zone frames, from any invariant-satisfying
state, the count stays 0. -/
lemma hyst_invariant_all {fs : List SquatFrameV9} :
    ∀ {d : SquatDetectorV9},
    (∀ a ∈ d.angleHistory, 100 < a ∧ a < 160) → d.isDown = false →
    d.count = 0 →
    (∀ f ∈ fs, (100 < f.leftAngle ∧ f.leftAngle < 160)
      ∧ (100 < f.rightAngle ∧ f.rightAngle < 160)) →
    (d.processAll fs).count = 0 := by
  induction fs with
  | nil => intro d _ _ inv5 _; exact inv5
  | cons f fs ih =>
      intro d inv1 inv4 inv5 hall
      obtain ⟨j1, j4, j5⟩ := hyst_invariant_step inv1 inv4 inv5
        (hall f (by simp)).1 (hall f (by simp)).2
      exact ih j1 j4 j5 (fun g hg => hall g (by simp [hg]))

end SquatDetectorV9

/-- C9: feeding only frames whose measured joint angles lie strictly
between the 100° down threshold and the 160° up threshold, the count
never increments and remains 0 from reset onward — for the push-up
detector (default 160° up threshold) and for the part_009 squat
detector. -/
theorem C9_hysteresis_dead_zone :
    (∀ (d : PushupDetector) (fs : List PushupFrame),
        d.upAngleThreshold = 160 →
        (∀ f ∈ fs, inHyst f.leftAngle = true ∧ inHyst f.rightAngle = true) →
        ∀ n, (d.reset.processAll (fs.take n)).count = 0)
    ∧ (∀ fs : List SquatFrameV9,
        (∀ f ∈ fs, (100 < f.leftAngle ∧ f.leftAngle < 160)
          ∧ (100 < f.rightAngle ∧ f.rightAngle < 160)) →
        ∀ n, (SquatDetectorV9.init.processAll (fs.take n)).count = 0) := by
  constructor
  · intro d fs hthr hall n
    have hthr' : d.reset.upAngleThreshold = 160 := hthr
    rw [PushupDetector.count_const_of_hyst hthr'
      (fun g hg => (hall g (List.take_subset n fs hg)).1)]
    rfl
  · intro fs hall n
    exact SquatDetectorV9.hyst_invariant_all
      (fun a ha => absurd ha (by simp [SquatDetectorV9.init])) rfl rfl
      (fun g hg => hall g (List.take_subset n fs hg))

/-- Witness for C9: two 120°/120° push-up frames and two 130°/130° squat
frames from reset leave both counts at 0. -/
theorem C9_witness :
    ((PushupDetector.init 3 160 100).reset.processAll
        [shallowDownFrame, shallowDownFrame]).count = 0
    ∧ (SquatDetectorV9.init.processAll [v9Frame 130, v9Frame 130]).count = 0 := by
  have h1 := C9_hysteresis_dead_zone.1 (PushupDetector.init 3 160 100)
    [shallowDownFrame, shallowDownFrame] (by decide) (by decide) 2
  have h2 := C9_hysteresis_dead_zone.2 [v9Frame 130, v9Frame 130]
    (by norm_num [v9Frame]) 2
  constructor
  · simpa using h1
  · simpa using h2
